import Mathlib

/-!
# Healthcare backend: token gate, ownership-scoped records, patient-doctor mappings

A shallow embedding of `routes/auth.js`, `routes/patients.js`, `routes/doctors.js` and
`routes/mappings.js`.

Conventions of the embedding
* Time is the JWT clock: whole seconds.
* `pool.query` is a parameter of every handler (`Pool σ`): it maps one of the SQL texts of the
  sources (`Sql`) and a storage state to a result or an error and a new storage state.
  `sqlPool` gives each statement the meaning of its SQL text on tables held as lists, one
  statement at a time.  The DDL and `config/db` are not part of the sources: column types,
  lengths and foreign-key actions are not modelled; `SERIAL` keys are modelled by counters.
* `jsonwebtoken`, `bcryptjs` and `express-validator` are libraries; they are modelled by
  their contract, with the MAC, the hash and the e-mail test as fields of `Config`.
* An `async` handler is a function `σ → Response × σ`.
-/

deriving instance DecidableEq for Except

namespace Healthcare

/-! ## JSON bodies and SQL values -/

/-- A value of a JSON request body (scalars only). -/
inductive JVal where
  | null
  | str (s : String)
  | num (n : Int)
  deriving DecidableEq, Repr

/-- A non-NULL SQL value, kept as it was sent. -/
inductive Scalar where
  | str (s : String)
  | num (n : Int)
  deriving DecidableEq, Repr

/-- A column value: `none` is SQL NULL. -/
abbrev Column := Option Scalar

/-- The object `req.body`; the first binding of a key counts. -/
abbrev Body := List (String × JVal)

/-- The expression `req.body.k` (destructuring): `none` is `undefined`. -/
def Body.field (b : Body) (k : String) : Option JVal := b.lookup k

/-- A query parameter as the driver sends it: `undefined` and `null` become NULL. -/
def pgParam : Option JVal → Column
  | none => none
  | some .null => none
  | some (.str s) => some (.str s)
  | some (.num n) => some (.num n)

/-- SQL `COALESCE(p, c)`. -/
def coalesce (p c : Column) : Column :=
  match p with
  | some v => some v
  | none => c

/-! ## express-validator -/

/-- The string a validator sees (`toString` of express-validator). -/
def toStr : Option JVal → String
  | none => ""
  | some .null => ""
  | some (.str s) => s
  | some (.num n) => toString n

/-- The validator `notEmpty()`. -/
def notEmpty (v : Option JVal) : Bool :=
  match v with
  | none => false
  | some .null => false
  | some (.str s) => s ≠ ""
  | some (.num _) => true

/-- The part of validator.js's integer pattern after the sign: `0|[1-9][0-9]*`. -/
def intDigits : List Char → Bool
  | [] => false
  | [c] => c.isDigit
  | c :: cs => (c.isDigit && c ≠ '0') && cs.all Char.isDigit

/-- The integer pattern of validator.js: `^[-+]?(0|[1-9][0-9]*)$`. -/
def intChars : List Char → Bool
  | [] => false
  | c :: cs => if c = '-' ∨ c = '+' then intDigits cs else intDigits (c :: cs)

/-- The validator `isInt()`. -/
def isInt (v : Option JVal) : Bool :=
  match v with
  | none => false
  | some .null => false
  | some (.str s) => intChars s.data
  | some (.num _) => true

/-- The validator `exists()`: the value is not `undefined`. -/
def fieldExists (v : Option JVal) : Bool := v.isSome

/-- The validator `isLength({ min })`. -/
def isLength (min : Nat) (v : Option JVal) : Bool := decide (min ≤ (toStr v).length)

/-- One entry of `errors.array()`. -/
structure ValidationError where
  param : String
  msg : String
  deriving DecidableEq, Repr

/-- A chain `body(param, msg).<check>()`: an error entry when the check fails. -/
def check (b : Body) (param msg : String) (ok : Option JVal → Bool) : List ValidationError :=
  if ok (b.field param) then [] else [⟨param, msg⟩]

/-- A chain `body(param, msg).optional().<check>()`: skipped when the field is `undefined`. -/
def checkOptional (b : Body) (param msg : String) (ok : Option JVal → Bool) :
    List ValidationError :=
  match b.field param with
  | none => []
  | some v => if ok (some v) then [] else [⟨param, msg⟩]

/-! ## Tokens (jsonwebtoken) -/

/-- The payload of a token: `{ id, iat, exp }`. -/
structure TokenPayload where
  id : Int
  iat : Nat
  exp : Option Nat
  deriving DecidableEq, Repr

/-- A well-formed JWT: its payload and its signature. -/
structure Token where
  payload : TokenPayload
  signature : Nat
  deriving DecidableEq, Repr

/-- The value of the `x-auth-token` header: a string that is not a JWT, or a JWT. -/
inductive Credential where
  | raw (s : String)
  | jwt (t : Token)
  deriving DecidableEq, Repr

/-- Process configuration and the library functions the routes are linked with. -/
structure Config where
  /-- The variable `process.env.JWT_SECRET`; the empty string stands for an unset variable. -/
  JWT_SECRET : String
  /-- The HMAC of a payload under a key. -/
  hs256 : String → TokenPayload → Nat
  /-- The validator `isEmail()` on the string form of the value. -/
  isEmail : String → Bool
  /-- The salt drawn by `bcrypt.genSalt(10)`. -/
  salt : String
  /-- The function `bcrypt.hash(password, salt)`. -/
  bcryptHash : String → String → String
  /-- The function `bcrypt.compare(password, hash)`. -/
  bcryptCompare : String → String → Bool

/-- The two errors `jwt.verify` throws: `JsonWebTokenError` and `TokenExpiredError`. -/
inductive JwtError where
  | invalid
  | expired
  deriving DecidableEq, Repr

/-- The span `"1h"` in seconds. -/
def oneHour : Nat := 3600

/-- The call `jwt.sign({ id }, process.env.JWT_SECRET, { expiresIn })` at clock `now`. -/
def jwt.sign (cfg : Config) (now : Nat) (id : Int) (expiresIn : Nat) : Except String Token :=
  if cfg.JWT_SECRET = "" then .error "secretOrPrivateKey must have a value"
  else
    let payload : TokenPayload := { id := id, iat := now, exp := some (now + expiresIn) }
    .ok { payload := payload, signature := cfg.hs256 cfg.JWT_SECRET payload }

/-- The call `jwt.verify(token, process.env.JWT_SECRET)` at clock `now`. -/
def jwt.verify (cfg : Config) (now : Nat) : Credential → Except JwtError TokenPayload
  | .raw _ => .error .invalid
  | .jwt t =>
    if cfg.JWT_SECRET = "" then .error .invalid
    else if t.signature ≠ cfg.hs256 cfg.JWT_SECRET t.payload then .error .invalid
    else
      match t.payload.exp with
      | some exp => if now ≥ exp then .error .expired else .ok t.payload
      | none => .ok t.payload

/-! ## Tables -/

/-- A row of `users`. -/
structure User where
  id : Int
  name : Column
  email : Column
  password : String
  deriving DecidableEq, Repr

/-- A row of `patients`. -/
structure Patient where
  id : Int
  name : Column
  age : Column
  gender : Column
  contact : Column
  address : Column
  created_by : Int
  deriving DecidableEq, Repr

/-- A row of `doctors`. -/
structure Doctor where
  id : Int
  name : Column
  specialization : Column
  contact : Column
  email : Column
  created_by : Int
  deriving DecidableEq, Repr

/-- A row of `patient_doctor_mapping`. -/
structure Mapping where
  id : Int
  patient_id : Int
  doctor_id : Int
  created_at : Nat
  deriving DecidableEq, Repr

/-- A row of a result set. -/
inductive Row where
  | user (u : User)
  | patient (p : Patient)
  | doctor (d : Doctor)
  | mapping (m : Mapping)
  /-- Columns `pdm.id, p.name AS patient_name, d.name AS doctor_name, pdm.created_at`. -/
  | mappingNames (id : Int) (patient_name doctor_name : Column) (created_at : Nat)
  /-- Columns `d.id, d.name, d.specialization, d.contact, d.email`. -/
  | doctorCard (id : Int) (name specialization contact email : Column)
  deriving DecidableEq, Repr

/-- The column `id` of a row of a result set. -/
def Row.id : Row → Int
  | .user u => u.id
  | .patient p => p.id
  | .doctor d => d.id
  | .mapping m => m.id
  | .mappingNames id _ _ _ => id
  | .doctorCard id _ _ _ _ => id

/-- The value `await pool.query(...)` resolves to. -/
structure QueryResult where
  rows : List Row
  rowCount : Nat
  deriving DecidableEq, Repr

/-- The SQL texts of the sources, each with its parameters. -/
inductive Sql where
  /-- `SELECT * FROM users WHERE email=$1` -/
  | selectUserByEmail (email : Option JVal)
  /-- `INSERT INTO users (name, email, password) VALUES ($1, $2, $3) RETURNING *` -/
  | insertUser (name email : Option JVal) (password : String)
  /-- `INSERT INTO patients (name, age, gender, contact, address, created_by)
  VALUES ($1, $2, $3, $4, $5, $6) RETURNING *` -/
  | insertPatient (name age gender contact address : Option JVal) (created_by : Int)
  /-- `SELECT * FROM patients WHERE created_by=$1` -/
  | selectPatientsByOwner (created_by : Int)
  /-- `SELECT * FROM patients WHERE id=$1 AND created_by=$2` -/
  | selectPatientOwned (id created_by : Int)
  /-- `UPDATE patients SET name = COALESCE($1, name), age = COALESCE($2, age),
  gender = COALESCE($3, gender), contact = COALESCE($4, contact),
  address = COALESCE($5, address) WHERE id=$6 AND created_by=$7 RETURNING *` -/
  | updatePatientOwned (name age gender contact address : Option JVal) (id created_by : Int)
  /-- `DELETE FROM patients WHERE id=$1 AND created_by=$2` -/
  | deletePatientOwned (id created_by : Int)
  /-- `INSERT INTO doctors (name, specialization, contact, email, created_by)
  VALUES ($1, $2, $3, $4, $5) RETURNING *` -/
  | insertDoctor (name specialization contact email : Option JVal) (created_by : Int)
  /-- `SELECT * FROM doctors WHERE created_by=$1` -/
  | selectDoctorsByOwner (created_by : Int)
  /-- `SELECT * FROM doctors WHERE id=$1 AND created_by=$2` -/
  | selectDoctorOwned (id created_by : Int)
  /-- `UPDATE doctors SET name = COALESCE($1, name),
  specialization = COALESCE($2, specialization), contact = COALESCE($3, contact),
  email = COALESCE($4, email) WHERE id=$5 AND created_by=$6 RETURNING *` -/
  | updateDoctorOwned (name specialization contact email : Option JVal) (id created_by : Int)
  /-- `DELETE FROM doctors WHERE id=$1 AND created_by=$2` -/
  | deleteDoctorOwned (id created_by : Int)
  /-- `INSERT INTO patient_doctor_mapping (patient_id, doctor_id) VALUES ($1, $2)
  RETURNING *` -/
  | insertMapping (patient_id doctor_id : Option JVal)
  /-- `SELECT pdm.id, p.name AS patient_name, d.name AS doctor_name, pdm.created_at
  FROM patient_doctor_mapping pdm JOIN patients p ON pdm.patient_id = p.id
  JOIN doctors d ON pdm.doctor_id = d.id` -/
  | selectMappingsJoined
  /-- `SELECT d.id, d.name, d.specialization, d.contact, d.email
  FROM patient_doctor_mapping pdm JOIN doctors d ON pdm.doctor_id = d.id
  WHERE pdm.patient_id = $1` -/
  | selectDoctorsOfPatient (patient_id : Int)
  /-- `SELECT * FROM patient_doctor_mapping WHERE id=$1` -/
  | selectMapping (id : Int)
  /-- `DELETE FROM patient_doctor_mapping WHERE id=$1` -/
  | deleteMapping (id : Int)
  deriving DecidableEq, Repr

/-- The object `pool` of `config/db`: one call of `pool.query` either throws (`.error`) or
resolves, and leaves the storage in a new state. -/
abbrev Pool (σ : Type) := Sql → σ → Except String QueryResult × σ

/-! ## Requests and responses -/

/-- The body of a response. -/
inductive ResBody where
  /-- `res.json({ msg })` -/
  | msg (s : String)
  /-- `res.send(text)` -/
  | text (s : String)
  /-- `res.json({ errors: errors.array() })` -/
  | errors (es : List ValidationError)
  /-- `res.json({ token })` -/
  | token (t : Token)
  /-- `res.json(result.rows[0])`; `none` when `rows[0]` is `undefined` -/
  | row (r : Option Row)
  /-- `res.json(result.rows)` -/
  | rows (rs : List Row)
  deriving DecidableEq, Repr

/-- An HTTP response: status and body. -/
structure Response where
  status : Nat
  body : ResBody
  deriving DecidableEq, Repr

/-- A request handler once its request is fixed: a response and the storage it leaves. -/
abbrev Handler (σ : Type) := σ → Response × σ

/-- The HTTP methods the routers register. -/
inductive Method where
  | GET
  | POST
  | PUT
  | DELETE
  deriving DecidableEq, Repr

/-- One segment of the path below a router's mount point: `int k` is a segment the storage
engine reads as the integer `k`, `text s` is any other segment. -/
inductive Segment where
  | int (k : Int)
  | text (s : String)
  deriving DecidableEq, Repr

/-- The parts of a request the routes read. -/
structure Request where
  method : Method
  path : List Segment
  /-- The value `req.header("x-auth-token")`; `none` is `undefined`. -/
  header : Option Credential
  body : Body
  deriving DecidableEq, Repr

/-- The answer of Express when no route of the application matches. -/
def notRouted : Response := ⟨404, .text "Cannot route"⟩

/-- The answer `res.status(500).send("Server error")` of the `catch` blocks. -/
def serverError : Response := ⟨500, .text "Server error"⟩

/-! ## Storage: the SQL texts on tables -/

/-- The tables and their key sequences. -/
structure Store where
  users : List User
  patients : List Patient
  doctors : List Doctor
  mappings : List Mapping
  users_id_seq : Int
  patients_id_seq : Int
  doctors_id_seq : Int
  mappings_id_seq : Int
  deriving DecidableEq, Repr

/-- The number a run of decimal digits denotes. -/
def digitsValue (cs : List Char) : Nat :=
  cs.foldl (fun acc c => 10 * acc + (c.toNat - 48)) 0

/-- The integer a parameter denotes for an integer column, when it matches `intChars`. -/
def Scalar.asInt? : Scalar → Option Int
  | .num n => some n
  | .str s =>
    if intChars s.data then
      match s.data with
      | c :: cs =>
        if c = '-' then some (-(digitsValue cs : Int))
        else if c = '+' then some (digitsValue cs : Int)
        else some (digitsValue (c :: cs) : Int)
      | [] => none
    else none

/-- The `SET` list of the `UPDATE patients` statement applied to one row. -/
def Patient.coalesced (p : Patient) (name age gender contact address : Option JVal) : Patient :=
  { p with
    name := coalesce (pgParam name) p.name
    age := coalesce (pgParam age) p.age
    gender := coalesce (pgParam gender) p.gender
    contact := coalesce (pgParam contact) p.contact
    address := coalesce (pgParam address) p.address }

/-- The `SET` list of the `UPDATE doctors` statement applied to one row. -/
def Doctor.coalesced (d : Doctor) (name specialization contact email : Option JVal) : Doctor :=
  { d with
    name := coalesce (pgParam name) d.name
    specialization := coalesce (pgParam specialization) d.specialization
    contact := coalesce (pgParam contact) d.contact
    email := coalesce (pgParam email) d.email }

/-- The statements executed one at a time on the tables, at clock `now`. -/
def sqlPool (now : Nat) : Pool Store := fun q s =>
  match q with
  | .selectUserByEmail email =>
    let rows := s.users.filter (fun u => pgParam email ≠ none ∧ u.email = pgParam email)
    (.ok ⟨rows.map Row.user, rows.length⟩, s)
  | .insertUser name email password =>
    let u : User := ⟨s.users_id_seq, pgParam name, pgParam email, password⟩
    (.ok ⟨[.user u], 1⟩, { s with users := s.users ++ [u], users_id_seq := s.users_id_seq + 1 })
  | .insertPatient name age gender contact address created_by =>
    let p : Patient := ⟨s.patients_id_seq, pgParam name, pgParam age, pgParam gender,
      pgParam contact, pgParam address, created_by⟩
    (.ok ⟨[.patient p], 1⟩,
      { s with patients := s.patients ++ [p], patients_id_seq := s.patients_id_seq + 1 })
  | .selectPatientsByOwner created_by =>
    let rows := s.patients.filter (fun p => p.created_by = created_by)
    (.ok ⟨rows.map Row.patient, rows.length⟩, s)
  | .selectPatientOwned id created_by =>
    let rows := s.patients.filter (fun p => p.id = id ∧ p.created_by = created_by)
    (.ok ⟨rows.map Row.patient, rows.length⟩, s)
  | .updatePatientOwned name age gender contact address id created_by =>
    let hit := fun (p : Patient) => decide (p.id = id ∧ p.created_by = created_by)
    let rows := (s.patients.filter hit).map
      (fun p => p.coalesced name age gender contact address)
    let table := s.patients.map
      (fun p => if hit p then p.coalesced name age gender contact address else p)
    (.ok ⟨rows.map Row.patient, rows.length⟩, { s with patients := table })
  | .deletePatientOwned id created_by =>
    let hit := fun (p : Patient) => decide (p.id = id ∧ p.created_by = created_by)
    (.ok ⟨[], (s.patients.filter hit).length⟩,
      { s with patients := s.patients.filter (fun p => !hit p) })
  | .insertDoctor name specialization contact email created_by =>
    let d : Doctor := ⟨s.doctors_id_seq, pgParam name, pgParam specialization,
      pgParam contact, pgParam email, created_by⟩
    (.ok ⟨[.doctor d], 1⟩,
      { s with doctors := s.doctors ++ [d], doctors_id_seq := s.doctors_id_seq + 1 })
  | .selectDoctorsByOwner created_by =>
    let rows := s.doctors.filter (fun d => d.created_by = created_by)
    (.ok ⟨rows.map Row.doctor, rows.length⟩, s)
  | .selectDoctorOwned id created_by =>
    let rows := s.doctors.filter (fun d => d.id = id ∧ d.created_by = created_by)
    (.ok ⟨rows.map Row.doctor, rows.length⟩, s)
  | .updateDoctorOwned name specialization contact email id created_by =>
    let hit := fun (d : Doctor) => decide (d.id = id ∧ d.created_by = created_by)
    let rows := (s.doctors.filter hit).map
      (fun d => d.coalesced name specialization contact email)
    let table := s.doctors.map
      (fun d => if hit d then d.coalesced name specialization contact email else d)
    (.ok ⟨rows.map Row.doctor, rows.length⟩, { s with doctors := table })
  | .deleteDoctorOwned id created_by =>
    let hit := fun (d : Doctor) => decide (d.id = id ∧ d.created_by = created_by)
    (.ok ⟨[], (s.doctors.filter hit).length⟩,
      { s with doctors := s.doctors.filter (fun d => !hit d) })
  | .insertMapping patient_id doctor_id =>
    match (pgParam patient_id).bind Scalar.asInt?, (pgParam doctor_id).bind Scalar.asInt? with
    | some pid, some did =>
      let m : Mapping := ⟨s.mappings_id_seq, pid, did, now⟩
      (.ok ⟨[.mapping m], 1⟩,
        { s with mappings := s.mappings ++ [m], mappings_id_seq := s.mappings_id_seq + 1 })
    | _, _ => (.error "invalid input for an integer column", s)
  | .selectMappingsJoined =>
    let rows := s.mappings.flatMap (fun pdm =>
      (s.patients.filter (fun p => pdm.patient_id = p.id)).flatMap (fun p =>
        (s.doctors.filter (fun d => pdm.doctor_id = d.id)).map (fun d =>
          Row.mappingNames pdm.id p.name d.name pdm.created_at)))
    (.ok ⟨rows, rows.length⟩, s)
  | .selectDoctorsOfPatient patient_id =>
    let rows := (s.mappings.filter (fun pdm => pdm.patient_id = patient_id)).flatMap (fun pdm =>
      (s.doctors.filter (fun d => pdm.doctor_id = d.id)).map (fun d =>
        Row.doctorCard d.id d.name d.specialization d.contact d.email))
    (.ok ⟨rows, rows.length⟩, s)
  | .selectMapping id =>
    let rows := s.mappings.filter (fun m => m.id = id)
    (.ok ⟨rows.map Row.mapping, rows.length⟩, s)
  | .deleteMapping id =>
    (.ok ⟨[], (s.mappings.filter (fun m => m.id = id)).length⟩,
      { s with mappings := s.mappings.filter (fun m => m.id ≠ id) })

/-! ## The gate of the patient and doctor routes -/

/-- The test `!token` on the header value: `undefined` and the empty string are falsy. -/
def falsy (header : Option Credential) : Bool :=
  match header with
  | none => true
  | some c => c = .raw ""

/-- The function `authMiddleware` of `routes/patients.js` and `routes/doctors.js` (the two
texts are the same): `.error res` is a response sent without calling `next`, `.ok decoded` is
`req.user = decoded; next()`. -/
def inlineAuthMiddleware (cfg : Config) (now : Nat) (header : Option Credential) :
    Except Response TokenPayload :=
  match header with
  | none => .error ⟨401, .msg "No token, authorization denied"⟩
  | some token =>
    if falsy (some token) then .error ⟨401, .msg "No token, authorization denied"⟩
    else
      match jwt.verify cfg now token with
      | .ok decoded => .ok decoded
      | .error _ => .error ⟨401, .msg "Token is not valid"⟩

/-- A route `router.METHOD(path, authMiddleware, ..., handler)`: the handler runs only when the
gate calls `next`, with `req.user` set. -/
def gated {σ : Type} (gate : Except Response TokenPayload) (next : TokenPayload → Handler σ) :
    Handler σ := fun s =>
  match gate with
  | .error res => (res, s)
  | .ok user => next user s

/-! ## routes/patients.js -/

namespace Patients

/-- The function `authMiddleware` of `routes/patients.js`. -/
def authMiddleware (cfg : Config) (now : Nat) (header : Option Credential) :
    Except Response TokenPayload :=
  inlineAuthMiddleware cfg now header

/-- The validators of `POST /api/patients`. -/
def postErrors (body : Body) : List ValidationError :=
  check body "name" "Name is required" notEmpty ++
  check body "age" "Age must be a number" isInt

/-- The validators of `PUT /api/patients/:id`. -/
def putErrors (body : Body) : List ValidationError :=
  checkOptional body "name" "Name is required" notEmpty ++
  checkOptional body "age" "Age must be a number" isInt

/-- The handler of `POST /api/patients`. -/
def post {σ : Type} (pool : Pool σ) (user : TokenPayload) (body : Body) : Handler σ := fun s =>
  if postErrors body ≠ [] then (⟨400, .errors (postErrors body)⟩, s)
  else
    match pool (.insertPatient (body.field "name") (body.field "age") (body.field "gender")
      (body.field "contact") (body.field "address") user.id) s with
    | (.ok newPatient, s1) => (⟨201, .row newPatient.rows.head?⟩, s1)
    | (.error _, s1) => (serverError, s1)

/-- The handler of `GET /api/patients`. -/
def getAll {σ : Type} (pool : Pool σ) (user : TokenPayload) : Handler σ := fun s =>
  match pool (.selectPatientsByOwner user.id) s with
  | (.ok patients, s1) => (⟨200, .rows patients.rows⟩, s1)
  | (.error _, s1) => (serverError, s1)

/-- The handler of `GET /api/patients/:id`. -/
def getById {σ : Type} (pool : Pool σ) (user : TokenPayload) (id : Int) : Handler σ := fun s =>
  match pool (.selectPatientOwned id user.id) s with
  | (.ok patient, s1) =>
    if patient.rows.length = 0 then (⟨404, .msg "Patient not found"⟩, s1)
    else (⟨200, .row patient.rows.head?⟩, s1)
  | (.error _, s1) => (serverError, s1)

/-- The handler of `PUT /api/patients/:id`. -/
def putById {σ : Type} (pool : Pool σ) (user : TokenPayload) (id : Int) (body : Body) :
    Handler σ := fun s =>
  if putErrors body ≠ [] then (⟨400, .errors (putErrors body)⟩, s)
  else
    match pool (.selectPatientOwned id user.id) s with
    | (.error _, s1) => (serverError, s1)
    | (.ok patient, s1) =>
      if patient.rows.length = 0 then (⟨404, .msg "Patient not found"⟩, s1)
      else
        match pool (.updatePatientOwned (body.field "name") (body.field "age")
          (body.field "gender") (body.field "contact") (body.field "address") id user.id) s1 with
        | (.ok updatedPatient, s2) => (⟨200, .row updatedPatient.rows.head?⟩, s2)
        | (.error _, s2) => (serverError, s2)

/-- The handler of `DELETE /api/patients/:id`. -/
def deleteById {σ : Type} (pool : Pool σ) (user : TokenPayload) (id : Int) : Handler σ :=
  fun s =>
  match pool (.selectPatientOwned id user.id) s with
  | (.error _, s1) => (serverError, s1)
  | (.ok patient, s1) =>
    if patient.rows.length = 0 then (⟨404, .msg "Patient not found"⟩, s1)
    else
      match pool (.deletePatientOwned id user.id) s1 with
      | (.ok _, s2) => (⟨200, .msg "Patient removed successfully"⟩, s2)
      | (.error _, s2) => (serverError, s2)

/-- The router of `routes/patients.js`, mounted at `/api/patients`.  A `:id` segment that is
not an integer makes the first statement of the handler fail. -/
def router {σ : Type} (cfg : Config) (now : Nat) (pool : Pool σ) (req : Request) : Handler σ :=
  match req.method, req.path with
  | .POST, [] => gated (authMiddleware cfg now req.header) (fun user => post pool user req.body)
  | .GET, [] => gated (authMiddleware cfg now req.header) (fun user => getAll pool user)
  | .GET, [.int id] =>
    gated (authMiddleware cfg now req.header) (fun user => getById pool user id)
  | .GET, [.text _] =>
    gated (authMiddleware cfg now req.header) (fun _ s => (serverError, s))
  | .PUT, [.int id] =>
    gated (authMiddleware cfg now req.header) (fun user => putById pool user id req.body)
  | .PUT, [.text _] =>
    gated (authMiddleware cfg now req.header) (fun _ s =>
      if putErrors req.body ≠ [] then (⟨400, .errors (putErrors req.body)⟩, s)
      else (serverError, s))
  | .DELETE, [.int id] =>
    gated (authMiddleware cfg now req.header) (fun user => deleteById pool user id)
  | .DELETE, [.text _] =>
    gated (authMiddleware cfg now req.header) (fun _ s => (serverError, s))
  | _, _ => fun s => (notRouted, s)

end Patients

/-! ## routes/doctors.js -/

namespace Doctors

/-- The function `authMiddleware` of `routes/doctors.js`. -/
def authMiddleware (cfg : Config) (now : Nat) (header : Option Credential) :
    Except Response TokenPayload :=
  inlineAuthMiddleware cfg now header

/-- The validators of `POST /api/doctors`. -/
def postErrors (body : Body) : List ValidationError :=
  check body "name" "Name is required" notEmpty ++
  check body "specialization" "Specialization is required" notEmpty

/-- The validators of `PUT /api/doctors/:id`. -/
def putErrors (body : Body) : List ValidationError :=
  checkOptional body "name" "Invalid value" notEmpty ++
  checkOptional body "specialization" "Invalid value" notEmpty

/-- The handler of `POST /api/doctors`. -/
def post {σ : Type} (pool : Pool σ) (user : TokenPayload) (body : Body) : Handler σ := fun s =>
  if postErrors body ≠ [] then (⟨400, .errors (postErrors body)⟩, s)
  else
    match pool (.insertDoctor (body.field "name") (body.field "specialization")
      (body.field "contact") (body.field "email") user.id) s with
    | (.ok newDoctor, s1) => (⟨201, .row newDoctor.rows.head?⟩, s1)
    | (.error _, s1) => (serverError, s1)

/-- The handler of `GET /api/doctors`. -/
def getAll {σ : Type} (pool : Pool σ) (user : TokenPayload) : Handler σ := fun s =>
  match pool (.selectDoctorsByOwner user.id) s with
  | (.ok doctors, s1) => (⟨200, .rows doctors.rows⟩, s1)
  | (.error _, s1) => (serverError, s1)

/-- The handler of `GET /api/doctors/:id`. -/
def getById {σ : Type} (pool : Pool σ) (user : TokenPayload) (id : Int) : Handler σ := fun s =>
  match pool (.selectDoctorOwned id user.id) s with
  | (.ok doctor, s1) =>
    if doctor.rows.length = 0 then (⟨404, .msg "Doctor not found"⟩, s1)
    else (⟨200, .row doctor.rows.head?⟩, s1)
  | (.error _, s1) => (serverError, s1)

/-- The handler of `PUT /api/doctors/:id`. -/
def putById {σ : Type} (pool : Pool σ) (user : TokenPayload) (id : Int) (body : Body) :
    Handler σ := fun s =>
  if putErrors body ≠ [] then (⟨400, .errors (putErrors body)⟩, s)
  else
    match pool (.selectDoctorOwned id user.id) s with
    | (.error _, s1) => (serverError, s1)
    | (.ok doctor, s1) =>
      if doctor.rows.length = 0 then (⟨404, .msg "Doctor not found"⟩, s1)
      else
        match pool (.updateDoctorOwned (body.field "name") (body.field "specialization")
          (body.field "contact") (body.field "email") id user.id) s1 with
        | (.ok updatedDoctor, s2) => (⟨200, .row updatedDoctor.rows.head?⟩, s2)
        | (.error _, s2) => (serverError, s2)

/-- The handler of `DELETE /api/doctors/:id`. -/
def deleteById {σ : Type} (pool : Pool σ) (user : TokenPayload) (id : Int) : Handler σ :=
  fun s =>
  match pool (.selectDoctorOwned id user.id) s with
  | (.error _, s1) => (serverError, s1)
  | (.ok doctor, s1) =>
    if doctor.rows.length = 0 then (⟨404, .msg "Doctor not found"⟩, s1)
    else
      match pool (.deleteDoctorOwned id user.id) s1 with
      | (.ok _, s2) => (⟨200, .msg "Doctor removed successfully"⟩, s2)
      | (.error _, s2) => (serverError, s2)

/-- The router of `routes/doctors.js`, mounted at `/api/doctors`.  A `:id` segment that is
not an integer makes the first statement of the handler fail. -/
def router {σ : Type} (cfg : Config) (now : Nat) (pool : Pool σ) (req : Request) : Handler σ :=
  match req.method, req.path with
  | .POST, [] => gated (authMiddleware cfg now req.header) (fun user => post pool user req.body)
  | .GET, [] => gated (authMiddleware cfg now req.header) (fun user => getAll pool user)
  | .GET, [.int id] =>
    gated (authMiddleware cfg now req.header) (fun user => getById pool user id)
  | .GET, [.text _] =>
    gated (authMiddleware cfg now req.header) (fun _ s => (serverError, s))
  | .PUT, [.int id] =>
    gated (authMiddleware cfg now req.header) (fun user => putById pool user id req.body)
  | .PUT, [.text _] =>
    gated (authMiddleware cfg now req.header) (fun _ s =>
      if putErrors req.body ≠ [] then (⟨400, .errors (putErrors req.body)⟩, s)
      else (serverError, s))
  | .DELETE, [.int id] =>
    gated (authMiddleware cfg now req.header) (fun user => deleteById pool user id)
  | .DELETE, [.text _] =>
    gated (authMiddleware cfg now req.header) (fun _ s => (serverError, s))
  | _, _ => fun s => (notRouted, s)

end Doctors

/-! ## routes/auth.js -/

namespace Auth

/-- The validators of `POST /api/auth/register`. -/
def registerErrors (cfg : Config) (body : Body) : List ValidationError :=
  check body "name" "Name is required" notEmpty ++
  check body "email" "Valid email is required" (fun v => cfg.isEmail (toStr v)) ++
  check body "password" "Password must be at least 6 characters" (isLength 6)

/-- The validators of `POST /api/auth/login`. -/
def loginErrors (cfg : Config) (body : Body) : List ValidationError :=
  check body "email" "Valid email is required" (fun v => cfg.isEmail (toStr v)) ++
  check body "password" "Password is required" fieldExists

/-- The token sent by register and login:
`jwt.sign({ id }, process.env.JWT_SECRET, { expiresIn: "1h" })`. -/
def issue (cfg : Config) (now : Nat) (id : Int) : Except String Token :=
  jwt.sign cfg now id oneHour

/-- The handler of `POST /api/auth/register`.  `bcrypt.hash` rejects a password that is not a
string, and reading `newUser.rows[0].id` throws when `rows[0]` is `undefined`. -/
def register {σ : Type} (cfg : Config) (now : Nat) (pool : Pool σ) (body : Body) :
    Handler σ := fun s =>
  if registerErrors cfg body ≠ [] then (⟨400, .errors (registerErrors cfg body)⟩, s)
  else
    match pool (.selectUserByEmail (body.field "email")) s with
    | (.error _, s1) => (serverError, s1)
    | (.ok userExist, s1) =>
      if userExist.rows.length > 0 then (⟨400, .msg "User already exists"⟩, s1)
      else
        match body.field "password" with
        | some (.str password) =>
          let hashedPassword := cfg.bcryptHash password cfg.salt
          match pool (.insertUser (body.field "name") (body.field "email") hashedPassword) s1 with
          | (.error _, s2) => (serverError, s2)
          | (.ok newUser, s2) =>
            match newUser.rows.head? with
            | some row =>
              match issue cfg now row.id with
              | .ok token => (⟨201, .token token⟩, s2)
              | .error _ => (serverError, s2)
            | none => (serverError, s2)
        | _ => (serverError, s1)

/-- The handler of `POST /api/auth/login`.  `bcrypt.compare` rejects a password that is not a
string and a row without the column `password`. -/
def login {σ : Type} (cfg : Config) (now : Nat) (pool : Pool σ) (body : Body) :
    Handler σ := fun s =>
  if loginErrors cfg body ≠ [] then (⟨400, .errors (loginErrors cfg body)⟩, s)
  else
    match pool (.selectUserByEmail (body.field "email")) s with
    | (.error _, s1) => (serverError, s1)
    | (.ok user, s1) =>
      if user.rows.length = 0 then (⟨400, .msg "Invalid credentials"⟩, s1)
      else
        match user.rows.head?, body.field "password" with
        | some (.user u), some (.str password) =>
          if !cfg.bcryptCompare password u.password then
            (⟨400, .msg "Invalid credentials"⟩, s1)
          else
            match issue cfg now u.id with
            | .ok token => (⟨200, .token token⟩, s1)
            | .error _ => (serverError, s1)
        | _, _ => (serverError, s1)

/-- The segment names a route path of this router (Express compares without case). -/
def named (seg : Segment) (name : String) : Bool :=
  match seg with
  | .text s => s.data.map Char.toLower = name.data
  | .int _ => false

/-- The router `module.exports` of `routes/auth.js` called as a function
`(req, res, next)`: `some res` is the response of the route that matched, `none` is the call
of `next` when no route of this router matches the request. -/
def router {σ : Type} (cfg : Config) (now : Nat) (pool : Pool σ) (req : Request) :
    σ → Option Response × σ := fun s =>
  match req.method, req.path with
  | .POST, [seg] =>
    if named seg "register" then
      let r := register cfg now pool req.body s
      (some r.1, r.2)
    else if named seg "login" then
      let r := login cfg now pool req.body s
      (some r.1, r.2)
    else (none, s)
  | _, _ => (none, s)

end Auth

/-! ## routes/mappings.js -/

namespace Mappings

/-- The binding `const authMiddleware = require("../routes/auth")`: the value of that module
is its `module.exports`, the router of `routes/auth.js`. -/
def authMiddleware {σ : Type} (cfg : Config) (now : Nat) (pool : Pool σ) (req : Request) :
    σ → Option Response × σ :=
  Auth.router cfg now pool req

/-- A route `router.METHOD(path, authMiddleware, ..., handler)` of this file: the handler runs
when `authMiddleware` calls `next`. -/
def behind {σ : Type} (mw : σ → Option Response × σ) (next : Handler σ) : Handler σ := fun s =>
  match mw s with
  | (some res, s1) => (res, s1)
  | (none, s1) => next s1

/-- The validators of `POST /api/mappings`. -/
def postErrors (body : Body) : List ValidationError :=
  check body "patient_id" "Patient ID is required" isInt ++
  check body "doctor_id" "Doctor ID is required" isInt

/-- The handler of `POST /api/mappings`. -/
def post {σ : Type} (pool : Pool σ) (body : Body) : Handler σ := fun s =>
  if postErrors body ≠ [] then (⟨400, .errors (postErrors body)⟩, s)
  else
    match pool (.insertMapping (body.field "patient_id") (body.field "doctor_id")) s with
    | (.ok newMapping, s1) => (⟨201, .row newMapping.rows.head?⟩, s1)
    | (.error _, s1) => (serverError, s1)

/-- The handler of `GET /api/mappings`. -/
def getAll {σ : Type} (pool : Pool σ) : Handler σ := fun s =>
  match pool .selectMappingsJoined s with
  | (.ok mappings, s1) => (⟨200, .rows mappings.rows⟩, s1)
  | (.error _, s1) => (serverError, s1)

/-- The handler of `GET /api/mappings/:patient_id`. -/
def getByPatient {σ : Type} (pool : Pool σ) (patient_id : Int) : Handler σ := fun s =>
  match pool (.selectDoctorsOfPatient patient_id) s with
  | (.ok doctors, s1) => (⟨200, .rows doctors.rows⟩, s1)
  | (.error _, s1) => (serverError, s1)

/-- The handler of `DELETE /api/mappings/:id`. -/
def deleteById {σ : Type} (pool : Pool σ) (id : Int) : Handler σ := fun s =>
  match pool (.selectMapping id) s with
  | (.error _, s1) => (⟨500, .msg "Server error"⟩, s1)
  | (.ok mapping, s1) =>
    if mapping.rows.length = 0 then (⟨404, .msg "Mapping not found"⟩, s1)
    else
      match pool (.deleteMapping id) s1 with
      | (.ok _, s2) => (⟨200, .msg "Mapping removed successfully"⟩, s2)
      | (.error _, s2) => (⟨500, .msg "Server error"⟩, s2)

/-- The router of `routes/mappings.js`, mounted at `/api/mappings`.  A parameter segment that
is not an integer makes the statement of the handler fail. -/
def router {σ : Type} (cfg : Config) (now : Nat) (pool : Pool σ) (req : Request) : Handler σ :=
  match req.method, req.path with
  | .POST, [] => behind (authMiddleware cfg now pool req) (post pool req.body)
  | .GET, [] => behind (authMiddleware cfg now pool req) (getAll pool)
  | .GET, [.int patient_id] =>
    behind (authMiddleware cfg now pool req) (getByPatient pool patient_id)
  | .GET, [.text _] => behind (authMiddleware cfg now pool req) (fun s => (serverError, s))
  | .DELETE, [.int id] => behind (authMiddleware cfg now pool req) (deleteById pool id)
  | .DELETE, [.text _] =>
    behind (authMiddleware cfg now pool req) (fun s => (⟨500, .msg "Server error"⟩, s))
  | _, _ => fun s => (notRouted, s)

end Mappings

/-! ## Well-formed stores, request sequences, interleavings -/

/-- The primary keys of a store: no two rows of `patients` share an `id`, none is at or past
the sequence, and the same for `doctors`. -/
def Store.keysOk (s : Store) : Prop :=
  (s.patients.map Patient.id).Nodup ∧ (∀ p ∈ s.patients, p.id < s.patients_id_seq) ∧
  (s.doctors.map Doctor.id).Nodup ∧ (∀ d ∈ s.doctors, d.id < s.doctors_id_seq)

instance (s : Store) : Decidable s.keysOk := by
  unfold Store.keysOk
  infer_instance

/-- One request to the patient router or to the doctor router, with the clock at its
arrival. -/
inductive Call where
  | patients (now : Nat) (req : Request)
  | doctors (now : Nat) (req : Request)
  deriving DecidableEq, Repr

/-- The application serving one call on the tables. -/
def serve (cfg : Config) (s : Store) : Call → Response × Store
  | .patients now req => Patients.router cfg now (sqlPool now) req s
  | .doctors now req => Doctors.router cfg now (sqlPool now) req s

/-- The tables after a sequence of calls served one after the other. -/
def serveAll (cfg : Config) (s : Store) : List Call → Store
  | [] => s
  | c :: cs => serveAll cfg (serve cfg s c).2 cs

/-- Every row of the first table that is still present in the second, by `id`, has the same
`created_by` there. -/
def ownersKept (s t : Store) : Prop :=
  (∀ p ∈ s.patients, ∀ q ∈ t.patients, q.id = p.id → q.created_by = p.created_by) ∧
  (∀ d ∈ s.doctors, ∀ e ∈ t.doctors, e.id = d.id → e.created_by = d.created_by)

/-- The value a column takes under an update: the request's value when the request supplies
one that is not `null`, the prior value when the request omits the field or supplies
`null`. -/
def mergedField (req : Option JVal) (prior new : Column) : Prop :=
  (∀ v, req = some v → v ≠ JVal.null → new = pgParam (some v) ∧ new ≠ none) ∧
  (req = none ∨ req = some JVal.null → new = prior)

/-- How one statement of the sources changes a table with its key sequence: not at all, by
appending a row keyed with the next value of the sequence, by rewriting rows without touching
key and owner, or by removing rows. -/
def tableStep {α : Type} (key owner : α → Int) (l : List α) (n : Int) (l2 : List α)
    (n2 : Int) : Prop :=
  (l2 = l ∧ n2 = n) ∨
  (∃ x, key x = n ∧ l2 = l ++ [x] ∧ n2 = n + 1) ∨
  (∃ f : α → α, (∀ x, key (f x) = key x ∧ owner (f x) = owner x) ∧ l2 = l.map f ∧ n2 = n) ∨
  (∃ g : α → Bool, l2 = l.filter g ∧ n2 = n)

/-- Every row of the later table whose key is below the earlier sequence has a row of the
earlier table with the same key and the same owner, and the sequence has not gone back. -/
def tableDescends {α : Type} (key owner : α → Int) (l : List α) (n : Int) (l2 : List α)
    (n2 : Int) : Prop :=
  n ≤ n2 ∧ ∀ q ∈ l2, key q < n → ∃ p ∈ l, key p = key q ∧ owner p = owner q

/-- A step of the store in which `patients` and `doctors` each make a `tableStep`. -/
def storeStep (s t : Store) : Prop :=
  tableStep Patient.id Patient.created_by s.patients s.patients_id_seq
    t.patients t.patients_id_seq ∧
  tableStep Doctor.id Doctor.created_by s.doctors s.doctors_id_seq
    t.doctors t.doctors_id_seq

/-- A pool on which the statement `other` of a concurrent request is executed just before
each `DELETE` on `patients` or `doctors`; every statement is still executed whole. -/
def racingPool (now : Nat) (other : Sql) : Pool Store := fun q s =>
  match q with
  | .deletePatientOwned _ _ => sqlPool now q (sqlPool now other s).2
  | .deleteDoctorOwned _ _ => sqlPool now q (sqlPool now other s).2
  | _ => sqlPool now q s

/-! ## Sample data -/

/-- A configuration with toy library functions. -/
def cfg0 : Config :=
  { JWT_SECRET := "s3cret"
    hs256 := fun key p => key.length + p.id.natAbs + p.iat
    isEmail := fun s => s.data.contains '@'
    salt := "salt"
    bcryptHash := fun password salt => salt ++ password
    bcryptCompare := fun password hash => hash = "salt" ++ password }

/-- The identity 1, as decoded from a token issued at clock 0. -/
def alice : TokenPayload := ⟨1, 0, some 3600⟩

/-- The identity 2, as decoded from a token issued at clock 0. -/
def bob : TokenPayload := ⟨2, 0, some 3600⟩

/-- A patient created by identity 1. -/
def patient1 : Patient := ⟨1, some (.str "P1"), some (.num 30), some (.str "F"), none, none, 1⟩

/-- A doctor created by identity 1. -/
def doctor1 : Doctor := ⟨1, some (.str "D1"), some (.str "Cardiology"), none, none, 1⟩

/-- A mapping of `patient1` to `doctor1`. -/
def mapping1 : Mapping := ⟨1, 1, 1, 0⟩

/-- A store with one patient, one doctor and one mapping. -/
def store0 : Store := ⟨[], [patient1], [doctor1], [mapping1], 1, 2, 2, 2⟩

/-! ## Lists of rows with distinct keys -/

section Keys

variable {α : Type} (key owner : α → Int)

theorem filter_key_absent (l : List α) (k o : Int) (h : ∀ x ∈ l, key x ≠ k) :
    l.filter (fun x => decide (key x = k ∧ owner x = o)) = [] := by
  rw [List.filter_eq_nil_iff]
  intro x hx
  have := h x hx
  simp [this]

theorem filter_key_owner (l : List α) (r : α) (hnd : (l.map key).Nodup) (hr : r ∈ l) :
    l.filter (fun x => decide (key x = key r ∧ owner x = owner r)) = [r] := by
  induction l with
  | nil => cases hr
  | cons a t ih =>
    rw [List.map_cons, List.nodup_cons] at hnd
    rcases List.mem_cons.mp hr with h | h
    · subst h
      have hrest : ∀ x ∈ t, key x ≠ key r := by
        intro x hx hk
        exact hnd.1 (hk ▸ List.mem_map_of_mem key hx)
      rw [List.filter_cons_of_pos (by simp),
        filter_key_absent key owner t (key r) (owner r) hrest]
    · have hne : key a ≠ key r := by
        intro hk
        exact hnd.1 (hk ▸ List.mem_map_of_mem key h)
      rw [List.filter_cons_of_neg (by simp [hne]), ih hnd.2 h]

theorem filter_key_stranger (l : List α) (r : α) (o : Int) (hnd : (l.map key).Nodup)
    (hr : r ∈ l) (ho : owner r ≠ o) :
    l.filter (fun x => decide (key x = key r ∧ owner x = o)) = [] := by
  rw [List.filter_eq_nil_iff]
  intro x hx
  simp only [decide_eq_true_eq, not_and]
  intro hk ho2
  have : x = r := List.inj_on_of_nodup_map hnd hx hr hk
  subst this
  exact ho ho2

end Keys

/-! ## The statements on the tables -/

theorem sql_selectPatientsByOwner (now : Nat) (o : Int) (s : Store) :
    sqlPool now (.selectPatientsByOwner o) s =
      (.ok ⟨(s.patients.filter (fun p => decide (p.created_by = o))).map Row.patient,
        (s.patients.filter (fun p => decide (p.created_by = o))).length⟩, s) := rfl

theorem sql_selectPatientOwned (now : Nat) (id o : Int) (s : Store) :
    sqlPool now (.selectPatientOwned id o) s =
      (.ok ⟨(s.patients.filter (fun p => decide (p.id = id ∧ p.created_by = o))).map Row.patient,
        (s.patients.filter (fun p => decide (p.id = id ∧ p.created_by = o))).length⟩, s) := rfl

theorem sql_selectDoctorsByOwner (now : Nat) (o : Int) (s : Store) :
    sqlPool now (.selectDoctorsByOwner o) s =
      (.ok ⟨(s.doctors.filter (fun d => decide (d.created_by = o))).map Row.doctor,
        (s.doctors.filter (fun d => decide (d.created_by = o))).length⟩, s) := rfl

theorem sql_selectDoctorOwned (now : Nat) (id o : Int) (s : Store) :
    sqlPool now (.selectDoctorOwned id o) s =
      (.ok ⟨(s.doctors.filter (fun d => decide (d.id = id ∧ d.created_by = o))).map Row.doctor,
        (s.doctors.filter (fun d => decide (d.id = id ∧ d.created_by = o))).length⟩, s) := rfl

/-! ## Patients and doctors on the tables -/

theorem patients_getById_none (now : Nat) (u : TokenPayload) (id : Int) (s : Store)
    (h : s.patients.filter (fun p => decide (p.id = id ∧ p.created_by = u.id)) = []) :
    Patients.getById (sqlPool now) u id s = (⟨404, .msg "Patient not found"⟩, s) := by
  simp only [Patients.getById, sql_selectPatientOwned, h]
  rfl

theorem patients_putById_none (now : Nat) (u : TokenPayload) (id : Int) (body : Body)
    (s : Store)
    (h : s.patients.filter (fun p => decide (p.id = id ∧ p.created_by = u.id)) = []) :
    Patients.putById (sqlPool now) u id body s =
      if Patients.putErrors body ≠ [] then (⟨400, .errors (Patients.putErrors body)⟩, s)
      else (⟨404, .msg "Patient not found"⟩, s) := by
  simp only [Patients.putById, sql_selectPatientOwned, h]
  rfl

theorem patients_deleteById_none (now : Nat) (u : TokenPayload) (id : Int) (s : Store)
    (h : s.patients.filter (fun p => decide (p.id = id ∧ p.created_by = u.id)) = []) :
    Patients.deleteById (sqlPool now) u id s = (⟨404, .msg "Patient not found"⟩, s) := by
  simp only [Patients.deleteById, sql_selectPatientOwned, h]
  rfl

theorem doctors_getById_none (now : Nat) (u : TokenPayload) (id : Int) (s : Store)
    (h : s.doctors.filter (fun d => decide (d.id = id ∧ d.created_by = u.id)) = []) :
    Doctors.getById (sqlPool now) u id s = (⟨404, .msg "Doctor not found"⟩, s) := by
  simp only [Doctors.getById, sql_selectDoctorOwned, h]
  rfl

theorem doctors_putById_none (now : Nat) (u : TokenPayload) (id : Int) (body : Body)
    (s : Store)
    (h : s.doctors.filter (fun d => decide (d.id = id ∧ d.created_by = u.id)) = []) :
    Doctors.putById (sqlPool now) u id body s =
      if Doctors.putErrors body ≠ [] then (⟨400, .errors (Doctors.putErrors body)⟩, s)
      else (⟨404, .msg "Doctor not found"⟩, s) := by
  simp only [Doctors.putById, sql_selectDoctorOwned, h]
  rfl

theorem doctors_deleteById_none (now : Nat) (u : TokenPayload) (id : Int) (s : Store)
    (h : s.doctors.filter (fun d => decide (d.id = id ∧ d.created_by = u.id)) = []) :
    Doctors.deleteById (sqlPool now) u id s = (⟨404, .msg "Doctor not found"⟩, s) := by
  simp only [Doctors.deleteById, sql_selectDoctorOwned, h]
  rfl

/-! ## C4: the list operation -/

/-- C4. On every store and for every identity `u`, `GET /api/patients` and `GET /api/doctors`
answer 200 with exactly the rows of that table whose `created_by` is `u.id`: every returned row
is such a row, every such row is returned, and the store is left as it was. -/
theorem list_returns_exactly_owned (now : Nat) (s : Store) (u : TokenPayload) :
    (∃ rows, Patients.getAll (sqlPool now) u s = (⟨200, .rows rows⟩, s) ∧
      (∀ r ∈ rows, ∃ p, r = Row.patient p ∧ p ∈ s.patients ∧ p.created_by = u.id) ∧
      (∀ p ∈ s.patients, p.created_by = u.id → Row.patient p ∈ rows)) ∧
    (∃ rows, Doctors.getAll (sqlPool now) u s = (⟨200, .rows rows⟩, s) ∧
      (∀ r ∈ rows, ∃ d, r = Row.doctor d ∧ d ∈ s.doctors ∧ d.created_by = u.id) ∧
      (∀ d ∈ s.doctors, d.created_by = u.id → Row.doctor d ∈ rows)) := by
  refine ⟨⟨_, rfl, ?_, ?_⟩, ⟨_, rfl, ?_, ?_⟩⟩
  · intro r hr
    obtain ⟨p, hp, rfl⟩ := List.mem_map.mp hr
    rw [List.mem_filter] at hp
    exact ⟨p, rfl, hp.1, by simpa using hp.2⟩
  · intro p hp ho
    exact List.mem_map_of_mem _ (List.mem_filter.mpr ⟨hp, by simpa using ho⟩)
  · intro r hr
    obtain ⟨d, hd, rfl⟩ := List.mem_map.mp hr
    rw [List.mem_filter] at hd
    exact ⟨d, rfl, hd.1, by simpa using hd.2⟩
  · intro d hd ho
    exact List.mem_map_of_mem _ (List.mem_filter.mpr ⟨hd, by simpa using ho⟩)

/-! ## C1: another identity's record and a missing record -/

/-- C1, counterexample.  Identity 2 sends `PUT /api/patients/1` with the body `name = ""` for
the patient 1 that identity 1 created: the answer is 400 with the validation errors, not the
404 of the claim. -/
theorem cross_identity_update_invalid_body_is_400 :
    patient1 ∈ store0.patients ∧ patient1.created_by = alice.id ∧ alice.id ≠ bob.id ∧
    Patients.putById (sqlPool 0) bob patient1.id [("name", .str "")] store0 =
      (⟨400, .errors [⟨"name", "Name is required"⟩]⟩, store0) := by
  decide

/-- C1, amended.  On a store with distinct keys, for a record `r` created by `a`, another
identity `b` and a key `missing` that no row has: get, update and delete by `b` on `r.id`
give the response they give on `missing` and leave the store as it was; that response is 404
with the not-found body for get, for delete and for an update whose body passes validation,
and the 400 validation response for an update whose body fails validation. -/
theorem cross_identity_same_as_missing (now : Nat) (s : Store) (a b : TokenPayload)
    (body : Body) (missing : Int) (hkeys : s.keysOk) (hab : a.id ≠ b.id) :
    (∀ r ∈ s.patients, r.created_by = a.id → (∀ x ∈ s.patients, x.id ≠ missing) →
      Patients.getById (sqlPool now) b r.id s = (⟨404, .msg "Patient not found"⟩, s) ∧
      Patients.getById (sqlPool now) b missing s = (⟨404, .msg "Patient not found"⟩, s) ∧
      Patients.deleteById (sqlPool now) b r.id s = (⟨404, .msg "Patient not found"⟩, s) ∧
      Patients.deleteById (sqlPool now) b missing s = (⟨404, .msg "Patient not found"⟩, s) ∧
      Patients.putById (sqlPool now) b r.id body s =
        Patients.putById (sqlPool now) b missing body s ∧
      (Patients.putById (sqlPool now) b r.id body s).2 = s ∧
      (Patients.putErrors body = [] →
        Patients.putById (sqlPool now) b r.id body s = (⟨404, .msg "Patient not found"⟩, s)) ∧
      (Patients.putErrors body ≠ [] →
        Patients.putById (sqlPool now) b r.id body s =
          (⟨400, .errors (Patients.putErrors body)⟩, s))) ∧
    (∀ r ∈ s.doctors, r.created_by = a.id → (∀ x ∈ s.doctors, x.id ≠ missing) →
      Doctors.getById (sqlPool now) b r.id s = (⟨404, .msg "Doctor not found"⟩, s) ∧
      Doctors.getById (sqlPool now) b missing s = (⟨404, .msg "Doctor not found"⟩, s) ∧
      Doctors.deleteById (sqlPool now) b r.id s = (⟨404, .msg "Doctor not found"⟩, s) ∧
      Doctors.deleteById (sqlPool now) b missing s = (⟨404, .msg "Doctor not found"⟩, s) ∧
      Doctors.putById (sqlPool now) b r.id body s =
        Doctors.putById (sqlPool now) b missing body s ∧
      (Doctors.putById (sqlPool now) b r.id body s).2 = s ∧
      (Doctors.putErrors body = [] →
        Doctors.putById (sqlPool now) b r.id body s = (⟨404, .msg "Doctor not found"⟩, s)) ∧
      (Doctors.putErrors body ≠ [] →
        Doctors.putById (sqlPool now) b r.id body s =
          (⟨400, .errors (Doctors.putErrors body)⟩, s))) := by
  obtain ⟨hp, -, hd, -⟩ := hkeys
  constructor
  · intro r hr hra hmiss
    have h1 := filter_key_stranger Patient.id Patient.created_by s.patients r b.id hp hr
      (by rw [hra]; exact hab)
    have h2 := filter_key_absent Patient.id Patient.created_by s.patients missing b.id hmiss
    refine ⟨patients_getById_none now b r.id s h1, patients_getById_none now b missing s h2,
      patients_deleteById_none now b r.id s h1, patients_deleteById_none now b missing s h2,
      ?_, ?_, ?_, ?_⟩
    · rw [patients_putById_none now b r.id body s h1,
        patients_putById_none now b missing body s h2]
    · rw [patients_putById_none now b r.id body s h1]
      split <;> rfl
    · intro hv
      rw [patients_putById_none now b r.id body s h1, if_neg (by simp [hv])]
    · intro hv
      rw [patients_putById_none now b r.id body s h1, if_pos hv]
  · intro r hr hra hmiss
    have h1 := filter_key_stranger Doctor.id Doctor.created_by s.doctors r b.id hd hr
      (by rw [hra]; exact hab)
    have h2 := filter_key_absent Doctor.id Doctor.created_by s.doctors missing b.id hmiss
    refine ⟨doctors_getById_none now b r.id s h1, doctors_getById_none now b missing s h2,
      doctors_deleteById_none now b r.id s h1, doctors_deleteById_none now b missing s h2,
      ?_, ?_, ?_, ?_⟩
    · rw [doctors_putById_none now b r.id body s h1,
        doctors_putById_none now b missing body s h2]
    · rw [doctors_putById_none now b r.id body s h1]
      split <;> rfl
    · intro hv
      rw [doctors_putById_none now b r.id body s h1, if_neg (by simp [hv])]
    · intro hv
      rw [doctors_putById_none now b r.id body s h1, if_pos hv]

theorem sql_updatePatientOwned (now : Nat) (n a g c d : Option JVal) (id o : Int) (s : Store) :
    sqlPool now (.updatePatientOwned n a g c d id o) s =
      (.ok ⟨((s.patients.filter (fun p => decide (p.id = id ∧ p.created_by = o))).map
          (fun p => p.coalesced n a g c d)).map Row.patient,
        ((s.patients.filter (fun p => decide (p.id = id ∧ p.created_by = o))).map
          (fun p => p.coalesced n a g c d)).length⟩,
       { s with patients := s.patients.map (fun p =>
          if decide (p.id = id ∧ p.created_by = o) then p.coalesced n a g c d else p) }) := rfl

theorem sql_updateDoctorOwned (now : Nat) (n sp c e : Option JVal) (id o : Int) (s : Store) :
    sqlPool now (.updateDoctorOwned n sp c e id o) s =
      (.ok ⟨((s.doctors.filter (fun d => decide (d.id = id ∧ d.created_by = o))).map
          (fun d => d.coalesced n sp c e)).map Row.doctor,
        ((s.doctors.filter (fun d => decide (d.id = id ∧ d.created_by = o))).map
          (fun d => d.coalesced n sp c e)).length⟩,
       { s with doctors := s.doctors.map (fun d =>
          if decide (d.id = id ∧ d.created_by = o) then d.coalesced n sp c e else d) }) := rfl

theorem sql_deletePatientOwned (now : Nat) (id o : Int) (s : Store) :
    sqlPool now (.deletePatientOwned id o) s =
      (.ok ⟨[], (s.patients.filter (fun p => decide (p.id = id ∧ p.created_by = o))).length⟩,
       { s with patients := (s.patients.filter
          (fun p => !decide (p.id = id ∧ p.created_by = o))) }) := rfl

theorem sql_deleteDoctorOwned (now : Nat) (id o : Int) (s : Store) :
    sqlPool now (.deleteDoctorOwned id o) s =
      (.ok ⟨[], (s.doctors.filter (fun d => decide (d.id = id ∧ d.created_by = o))).length⟩,
       { s with doctors := (s.doctors.filter
          (fun d => !decide (d.id = id ∧ d.created_by = o))) }) := rfl

section Keys

variable {α : Type} (key owner : α → Int)

theorem hit_iff_eq (l : List α) (r : α) (hnd : (l.map key).Nodup) (hr : r ∈ l) (x : α)
    (hx : x ∈ l) : (key x = key r ∧ owner x = owner r) ↔ x = r := by
  constructor
  · intro h
    exact List.inj_on_of_nodup_map hnd hx hr h.1
  · intro h
    subst h
    exact ⟨rfl, rfl⟩

theorem map_hit_eq [DecidableEq α] (l : List α) (r : α) (f : α → α) (hnd : (l.map key).Nodup) (hr : r ∈ l) :
    l.map (fun x => if decide (key x = key r ∧ owner x = owner r) then f x else x) =
      l.map (fun x => if x = r then f r else x) := by
  apply List.map_congr_left
  intro x hx
  by_cases h : x = r
  · subst h
    simp
  · have : ¬ (key x = key r ∧ owner x = owner r) :=
      fun hh => h ((hit_iff_eq key owner l r hnd hr x hx).mp hh)
    rw [if_neg (by simpa using this), if_neg h]

theorem filter_not_hit_eq [DecidableEq α] (l : List α) (r : α) (hnd : (l.map key).Nodup) (hr : r ∈ l) :
    l.filter (fun x => !decide (key x = key r ∧ owner x = owner r)) =
      l.filter (fun x => decide (x ≠ r)) := by
  apply List.filter_congr
  intro x hx
  have := hit_iff_eq key owner l r hnd hr x hx
  by_cases h : x = r
  · subst h
    simp
  · have hn : ¬ (key x = key r ∧ owner x = owner r) := fun hh => h (this.mp hh)
    rw [decide_eq_false hn]
    simp [h]

theorem filter_hit_after_delete (l : List α) (k o : Int) :
    (l.filter (fun x => !decide (key x = k ∧ owner x = o))).filter
      (fun x => decide (key x = k ∧ owner x = o)) = [] := by
  rw [List.filter_eq_nil_iff]
  intro x hx hh
  have := (List.mem_filter.mp hx).2
  simp [hh] at this

end Keys

theorem mergedField_coalesce (req : Option JVal) (prior : Column) :
    mergedField req prior (coalesce (pgParam req) prior) := by
  constructor
  · intro v hv hn
    subst hv
    cases v <;> simp_all [pgParam, coalesce]
  · rintro (h | h) <;> subst h <;> rfl

theorem patients_putById_owned (now : Nat) (s : Store) (u : TokenPayload) (body : Body)
    (r : Patient) (hnd : (s.patients.map Patient.id).Nodup) (hr : r ∈ s.patients)
    (ho : r.created_by = u.id) (hv : Patients.putErrors body = []) :
    Patients.putById (sqlPool now) u r.id body s =
      (⟨200, .row (some (.patient (r.coalesced (body.field "name") (body.field "age")
          (body.field "gender") (body.field "contact") (body.field "address"))))⟩,
       { s with patients := s.patients.map (fun x =>
          if x = r then r.coalesced (body.field "name") (body.field "age")
            (body.field "gender") (body.field "contact") (body.field "address") else x) }) := by
  have h1 := filter_key_owner Patient.id Patient.created_by s.patients r hnd hr
  have h2 := map_hit_eq Patient.id Patient.created_by s.patients r
    (fun p => p.coalesced (body.field "name") (body.field "age")
          (body.field "gender") (body.field "contact") (body.field "address")) hnd hr
  rw [ho] at h1 h2
  simp only [Patients.putById, hv, sql_selectPatientOwned, sql_updatePatientOwned, h1, h2]
  rfl

theorem doctors_putById_owned (now : Nat) (s : Store) (u : TokenPayload) (body : Body)
    (r : Doctor) (hnd : (s.doctors.map Doctor.id).Nodup) (hr : r ∈ s.doctors)
    (ho : r.created_by = u.id) (hv : Doctors.putErrors body = []) :
    Doctors.putById (sqlPool now) u r.id body s =
      (⟨200, .row (some (.doctor (r.coalesced (body.field "name")
          (body.field "specialization") (body.field "contact") (body.field "email"))))⟩,
       { s with doctors := s.doctors.map (fun x =>
          if x = r then r.coalesced (body.field "name") (body.field "specialization")
            (body.field "contact") (body.field "email") else x) }) := by
  have h1 := filter_key_owner Doctor.id Doctor.created_by s.doctors r hnd hr
  have h2 := map_hit_eq Doctor.id Doctor.created_by s.doctors r
    (fun d => d.coalesced (body.field "name")
          (body.field "specialization") (body.field "contact") (body.field "email")) hnd hr
  rw [ho] at h1 h2
  simp only [Doctors.putById, hv, sql_selectDoctorOwned, sql_updateDoctorOwned, h1, h2]
  rfl

/-! ## C5: update -/

/-- C5, counterexample.  Identity 1 sends `PUT /api/patients/1` with the body `gender = null`
for its own patient 1, whose gender is `"F"`.  The body passes validation and supplies the
field, yet the row returned and stored still has gender `"F"`: `COALESCE` keeps the prior
value for a `null`. -/
theorem update_with_null_keeps_prior_value :
    patient1 ∈ store0.patients ∧ patient1.created_by = alice.id ∧
    Patients.putErrors [("gender", .null)] = [] ∧
    Body.field [("gender", .null)] "gender" = some JVal.null ∧
    patient1.gender = some (.str "F") ∧
    Patients.putById (sqlPool 0) alice patient1.id [("gender", .null)] store0 =
      (⟨200, .row (some (.patient patient1))⟩, store0) := by
  decide

/-- C5, amended.  On a store with distinct keys, for every record `r` owned by the caller and
every update body that passes validation, the update answers 200 with a row `r'` and stores it
in the place of `r`: each updatable field of `r'` is the request's value when the request
supplies a value other than `null`, and the prior value of `r` when the request omits the field
or supplies `null`; `id` and `created_by` are those of `r`; every other row and every other
table is as before.  If no row has the requested `id` together with the caller as owner, an
update whose body passes validation answers 404 and changes nothing. -/
theorem update_merges_supplied_fields (now : Nat) (s : Store) (u : TokenPayload) (body : Body)
    (hkeys : s.keysOk) :
    (Patients.putErrors body = [] →
      (∀ r ∈ s.patients, r.created_by = u.id →
        ∃ r2 : Patient,
          Patients.putById (sqlPool now) u r.id body s =
            (⟨200, .row (some (.patient r2))⟩,
             { s with patients := s.patients.map (fun x => if x = r then r2 else x) }) ∧
          r2.id = r.id ∧ r2.created_by = r.created_by ∧
          mergedField (body.field "name") r.name r2.name ∧
          mergedField (body.field "age") r.age r2.age ∧
          mergedField (body.field "gender") r.gender r2.gender ∧
          mergedField (body.field "contact") r.contact r2.contact ∧
          mergedField (body.field "address") r.address r2.address) ∧
      (∀ id, (∀ x ∈ s.patients, ¬ (x.id = id ∧ x.created_by = u.id)) →
        Patients.putById (sqlPool now) u id body s = (⟨404, .msg "Patient not found"⟩, s))) ∧
    (Doctors.putErrors body = [] →
      (∀ r ∈ s.doctors, r.created_by = u.id →
        ∃ r2 : Doctor,
          Doctors.putById (sqlPool now) u r.id body s =
            (⟨200, .row (some (.doctor r2))⟩,
             { s with doctors := s.doctors.map (fun x => if x = r then r2 else x) }) ∧
          r2.id = r.id ∧ r2.created_by = r.created_by ∧
          mergedField (body.field "name") r.name r2.name ∧
          mergedField (body.field "specialization") r.specialization r2.specialization ∧
          mergedField (body.field "contact") r.contact r2.contact ∧
          mergedField (body.field "email") r.email r2.email) ∧
      (∀ id, (∀ x ∈ s.doctors, ¬ (x.id = id ∧ x.created_by = u.id)) →
        Doctors.putById (sqlPool now) u id body s = (⟨404, .msg "Doctor not found"⟩, s))) := by
  obtain ⟨hp, -, hd, -⟩ := hkeys
  refine ⟨fun hv => ⟨?_, ?_⟩, fun hv => ⟨?_, ?_⟩⟩
  · intro r hr ho
    exact ⟨_, patients_putById_owned now s u body r hp hr ho hv, rfl, rfl,
      mergedField_coalesce _ _, mergedField_coalesce _ _, mergedField_coalesce _ _,
      mergedField_coalesce _ _, mergedField_coalesce _ _⟩
  · intro id hno
    have h : s.patients.filter (fun p => decide (p.id = id ∧ p.created_by = u.id)) = [] := by
      rw [List.filter_eq_nil_iff]
      intro x hx
      simpa using hno x hx
    rw [patients_putById_none now u id body s h, if_neg (by simp [hv])]
  · intro r hr ho
    exact ⟨_, doctors_putById_owned now s u body r hd hr ho hv, rfl, rfl,
      mergedField_coalesce _ _, mergedField_coalesce _ _, mergedField_coalesce _ _,
      mergedField_coalesce _ _⟩
  · intro id hno
    have h : s.doctors.filter (fun d => decide (d.id = id ∧ d.created_by = u.id)) = [] := by
      rw [List.filter_eq_nil_iff]
      intro x hx
      simpa using hno x hx
    rw [doctors_putById_none now u id body s h, if_neg (by simp [hv])]

/-! ## C7: deleting twice -/

theorem patients_deleteById_owned (now : Nat) (s : Store) (u : TokenPayload) (r : Patient)
    (hnd : (s.patients.map Patient.id).Nodup) (hr : r ∈ s.patients)
    (ho : r.created_by = u.id) :
    Patients.deleteById (sqlPool now) u r.id s =
      (⟨200, .msg "Patient removed successfully"⟩,
       { s with patients := (s.patients.filter (fun x => decide (x ≠ r))) }) := by
  have h1 := filter_key_owner Patient.id Patient.created_by s.patients r hnd hr
  have h2 := filter_not_hit_eq Patient.id Patient.created_by s.patients r hnd hr
  rw [ho] at h1 h2
  simp only [Patients.deleteById, sql_selectPatientOwned, sql_deletePatientOwned, h1, h2]
  rfl

theorem doctors_deleteById_owned (now : Nat) (s : Store) (u : TokenPayload) (r : Doctor)
    (hnd : (s.doctors.map Doctor.id).Nodup) (hr : r ∈ s.doctors)
    (ho : r.created_by = u.id) :
    Doctors.deleteById (sqlPool now) u r.id s =
      (⟨200, .msg "Doctor removed successfully"⟩,
       { s with doctors := (s.doctors.filter (fun x => decide (x ≠ r))) }) := by
  have h1 := filter_key_owner Doctor.id Doctor.created_by s.doctors r hnd hr
  have h2 := filter_not_hit_eq Doctor.id Doctor.created_by s.doctors r hnd hr
  rw [ho] at h1 h2
  simp only [Doctors.deleteById, sql_selectDoctorOwned, sql_deleteDoctorOwned, h1, h2]
  rfl

theorem filter_ne_key_absent {α : Type} [DecidableEq α] (key : α → Int) (l : List α) (r : α)
    (hnd : (l.map key).Nodup) (hr : r ∈ l) :
    ∀ x ∈ l.filter (fun x => decide (x ≠ r)), key x ≠ key r := by
  intro x hx hk
  rw [List.mem_filter] at hx
  have : x = r := List.inj_on_of_nodup_map hnd hx.1 hr hk
  simp [this] at hx

/-- C7. On a store with distinct keys, when the owner of a patient or doctor `r` deletes
`r.id` twice in a row, the first delete answers 200, removes `r` and nothing else (the other
rows of the table keep their order, the other tables and the sequences are as before), and the
second delete answers 404 with the not-found body, not 500, and leaves the store as the first
delete left it. -/
theorem delete_twice_second_is_not_found (now : Nat) (s : Store) (u : TokenPayload)
    (hkeys : s.keysOk) :
    (∀ r ∈ s.patients, r.created_by = u.id →
      Patients.deleteById (sqlPool now) u r.id s =
        (⟨200, .msg "Patient removed successfully"⟩,
         { s with patients := (s.patients.filter (fun x => decide (x ≠ r))) }) ∧
      r ∉ (Patients.deleteById (sqlPool now) u r.id s).2.patients ∧
      Patients.deleteById (sqlPool now) u r.id (Patients.deleteById (sqlPool now) u r.id s).2 =
        (⟨404, .msg "Patient not found"⟩, (Patients.deleteById (sqlPool now) u r.id s).2)) ∧
    (∀ r ∈ s.doctors, r.created_by = u.id →
      Doctors.deleteById (sqlPool now) u r.id s =
        (⟨200, .msg "Doctor removed successfully"⟩,
         { s with doctors := (s.doctors.filter (fun x => decide (x ≠ r))) }) ∧
      r ∉ (Doctors.deleteById (sqlPool now) u r.id s).2.doctors ∧
      Doctors.deleteById (sqlPool now) u r.id (Doctors.deleteById (sqlPool now) u r.id s).2 =
        (⟨404, .msg "Doctor not found"⟩, (Doctors.deleteById (sqlPool now) u r.id s).2)) := by
  obtain ⟨hp, -, hd, -⟩ := hkeys
  constructor
  · intro r hr ho
    have h := patients_deleteById_owned now s u r hp hr ho
    refine ⟨h, ?_, ?_⟩
    · rw [h]
      simp
    · rw [h]
      apply patients_deleteById_none
      exact filter_key_absent Patient.id Patient.created_by _ r.id u.id
        (filter_ne_key_absent Patient.id s.patients r hp hr)
  · intro r hr ho
    have h := doctors_deleteById_owned now s u r hd hr ho
    refine ⟨h, ?_, ?_⟩
    · rw [h]
      simp
    · rw [h]
      apply doctors_deleteById_none
      exact filter_key_absent Doctor.id Doctor.created_by _ r.id u.id
        (filter_ne_key_absent Doctor.id s.doctors r hd hr)

/-! ## C6: what delete reports -/

/-- C6, counterexample.  Two delete requests of identity 1 for patient 1 overlap: both run
their ownership check on the store that still holds the row, then the `DELETE` of the other
request is executed, then the `DELETE` of this one, which removes zero rows.  The handler
answers 200 "removed successfully" all the same. -/
theorem delete_reports_success_with_zero_rows_removed :
    (racingPool 0 (.deletePatientOwned 1 1) (.selectPatientOwned 1 alice.id) store0).1 =
      .ok ⟨[.patient patient1], 1⟩ ∧
    (racingPool 0 (.deletePatientOwned 1 1) (.deletePatientOwned 1 alice.id) store0).1 =
      .ok ⟨[], 0⟩ ∧
    (Patients.deleteById (racingPool 0 (.deletePatientOwned 1 1)) alice 1 store0).1 =
      ⟨200, .msg "Patient removed successfully"⟩ := by
  decide

/-- C6, amended.  For every pool (every possible result of the two storage statements),
delete by id on a patient or doctor answers 404 exactly when its ownership-qualified `SELECT`
returns no row, answers 200 "removed" exactly when that `SELECT` returns a row and the
ownership-qualified `DELETE` that follows completes, whatever number of rows it removes, and
answers 500 exactly when one of the two statements fails.  When the two statements run on the
tables with nothing in between, the answer is 200 with a row removed from the table, or 404
with the store unchanged. -/
theorem delete_reports_outcome_of_ownership_check {σ : Type} (pool : Pool σ) (now : Nat)
    (u : TokenPayload) (id : Int) (s : σ) (t : Store) :
    (((Patients.deleteById pool u id s).1 = ⟨404, .msg "Patient not found"⟩ ↔
        ∃ r, (pool (.selectPatientOwned id u.id) s).1 = .ok r ∧ r.rows.length = 0) ∧
      ((Patients.deleteById pool u id s).1 = ⟨200, .msg "Patient removed successfully"⟩ ↔
        ∃ r, (pool (.selectPatientOwned id u.id) s).1 = .ok r ∧ r.rows.length ≠ 0 ∧
          ∃ d, (pool (.deletePatientOwned id u.id) (pool (.selectPatientOwned id u.id) s).2).1
            = .ok d) ∧
      ((Patients.deleteById pool u id s).1 = serverError ↔
        (∃ e, (pool (.selectPatientOwned id u.id) s).1 = .error e) ∨
        ∃ r, (pool (.selectPatientOwned id u.id) s).1 = .ok r ∧ r.rows.length ≠ 0 ∧
          ∃ e, (pool (.deletePatientOwned id u.id) (pool (.selectPatientOwned id u.id) s).2).1
            = .error e)) ∧
    (((Doctors.deleteById pool u id s).1 = ⟨404, .msg "Doctor not found"⟩ ↔
        ∃ r, (pool (.selectDoctorOwned id u.id) s).1 = .ok r ∧ r.rows.length = 0) ∧
      ((Doctors.deleteById pool u id s).1 = ⟨200, .msg "Doctor removed successfully"⟩ ↔
        ∃ r, (pool (.selectDoctorOwned id u.id) s).1 = .ok r ∧ r.rows.length ≠ 0 ∧
          ∃ d, (pool (.deleteDoctorOwned id u.id) (pool (.selectDoctorOwned id u.id) s).2).1
            = .ok d) ∧
      ((Doctors.deleteById pool u id s).1 = serverError ↔
        (∃ e, (pool (.selectDoctorOwned id u.id) s).1 = .error e) ∨
        ∃ r, (pool (.selectDoctorOwned id u.id) s).1 = .ok r ∧ r.rows.length ≠ 0 ∧
          ∃ e, (pool (.deleteDoctorOwned id u.id) (pool (.selectDoctorOwned id u.id) s).2).1
            = .error e)) ∧
    (((Patients.deleteById (sqlPool now) u id t).1 = ⟨200, .msg "Patient removed successfully"⟩ ∧
        (Patients.deleteById (sqlPool now) u id t).2.patients.length < t.patients.length) ∨
      Patients.deleteById (sqlPool now) u id t = (⟨404, .msg "Patient not found"⟩, t)) ∧
    (((Doctors.deleteById (sqlPool now) u id t).1 = ⟨200, .msg "Doctor removed successfully"⟩ ∧
        (Doctors.deleteById (sqlPool now) u id t).2.doctors.length < t.doctors.length) ∨
      Doctors.deleteById (sqlPool now) u id t = (⟨404, .msg "Doctor not found"⟩, t)) := by
  refine ⟨?_, ?_, ?_, ?_⟩
  · unfold Patients.deleteById
    rcases hsel : pool (.selectPatientOwned id u.id) s with ⟨e | r, s1⟩
    · simp [serverError]
    · by_cases hlen : r.rows.length = 0
      · simp [hlen, List.length_eq_zero.mp hlen, serverError]
      · have hne : r.rows ≠ [] := fun h => hlen (List.length_eq_zero.mpr h)
        rcases hdel : pool (.deletePatientOwned id u.id) s1 with ⟨e | d, s2⟩
        · simp [hlen, hne, hdel, serverError]
        · simp [hlen, hne, hdel, serverError]
  · unfold Doctors.deleteById
    rcases hsel : pool (.selectDoctorOwned id u.id) s with ⟨e | r, s1⟩
    · simp [serverError]
    · by_cases hlen : r.rows.length = 0
      · simp [hlen, List.length_eq_zero.mp hlen, serverError]
      · have hne : r.rows ≠ [] := fun h => hlen (List.length_eq_zero.mpr h)
        rcases hdel : pool (.deleteDoctorOwned id u.id) s1 with ⟨e | d, s2⟩
        · simp [hlen, hne, hdel, serverError]
        · simp [hlen, hne, hdel, serverError]
  · by_cases h : t.patients.filter (fun p => decide (p.id = id ∧ p.created_by = u.id)) = []
    · exact Or.inr (patients_deleteById_none now u id t h)
    · left
      obtain ⟨x, hx⟩ := List.exists_mem_of_ne_nil _ h
      have hx2 := List.mem_filter.mp hx
      have hlen : ¬ ((t.patients.filter
          (fun p => decide (p.id = id ∧ p.created_by = u.id))).map Row.patient).length
            = 0 := by
        rw [List.length_map]
        exact fun h0 => h (List.length_eq_zero.mp h0)
      simp only [Patients.deleteById, sql_selectPatientOwned, sql_deletePatientOwned, hlen,
        if_false, true_and]
      apply List.length_filter_lt_length_iff_exists.mpr
      exact ⟨x, hx2.1, by simpa using hx2.2⟩
  · by_cases h : t.doctors.filter (fun d => decide (d.id = id ∧ d.created_by = u.id)) = []
    · exact Or.inr (doctors_deleteById_none now u id t h)
    · left
      obtain ⟨x, hx⟩ := List.exists_mem_of_ne_nil _ h
      have hx2 := List.mem_filter.mp hx
      have hlen : ¬ ((t.doctors.filter
          (fun d => decide (d.id = id ∧ d.created_by = u.id))).map Row.doctor).length
            = 0 := by
        rw [List.length_map]
        exact fun h0 => h (List.length_eq_zero.mp h0)
      simp only [Doctors.deleteById, sql_selectDoctorOwned, sql_deleteDoctorOwned, hlen,
        if_false, true_and]
      apply List.length_filter_lt_length_iff_exists.mpr
      exact ⟨x, hx2.1, by simpa using hx2.2⟩

/-! ## C2 and C10: the mapping routes -/

theorem auth_router_calls_next {σ : Type} (cfg : Config) (now : Nat) (pool : Pool σ)
    (req : Request) (s : σ) (h : req.method ≠ .POST ∨ req.path = []) :
    Auth.router cfg now pool req s = (none, s) := by
  unfold Auth.router
  split
  · rename_i hm hp
    rcases h with h | h
    · exact absurd hm h
    · rw [h] at hp
      cases hp
  · rfl

/-- C2, failing inputs.  Requests to the four mapping routes with no `x-auth-token` header are
not answered 401: the binding `authMiddleware` of `routes/mappings.js` is the router of
`routes/auth.js`, none of whose routes matches, so it calls `next`; the list routes read the
tables, create inserts a mapping and delete removes one. -/
theorem mapping_routes_without_credential_are_served :
    Mappings.router cfg0 0 (sqlPool 0) ⟨.GET, [], none, []⟩ store0 =
      (⟨200, .rows [.mappingNames 1 (some (.str "P1")) (some (.str "D1")) 0]⟩, store0) ∧
    Mappings.router cfg0 0 (sqlPool 0) ⟨.GET, [.int 1], none, []⟩ store0 =
      (⟨200, .rows [.doctorCard 1 (some (.str "D1")) (some (.str "Cardiology")) none none]⟩,
        store0) ∧
    Mappings.router cfg0 5 (sqlPool 5)
        ⟨.POST, [], none, [("patient_id", .num 1), ("doctor_id", .num 1)]⟩ store0 =
      (⟨201, .row (some (.mapping ⟨2, 1, 1, 5⟩))⟩,
        { store0 with mappings := [mapping1, ⟨2, 1, 1, 5⟩], mappings_id_seq := 3 }) ∧
    Mappings.router cfg0 0 (sqlPool 0) ⟨.DELETE, [.int 1], none, []⟩ store0 =
      (⟨200, .msg "Mapping removed successfully"⟩, { store0 with mappings := [] }) ∧
    Patients.router cfg0 0 (sqlPool 0) ⟨.GET, [], none, []⟩ store0 =
      (⟨401, .msg "No token, authorization denied"⟩, store0) := by
  decide

/-- C10. For every store, mapping id `m` and any two credentials (valid, invalid or absent)
and bodies, `DELETE /api/mappings/m` gives the same response and the same resulting store.
When a mapping with id `m` exists the response is 200 and the store differs only in that the
mappings with id `m` are gone; when none exists the response is 404 and the store is as it
was. -/
theorem mapping_delete_ignores_identity (cfg : Config) (now : Nat) (s : Store) (m : Int)
    (u v : Option Credential) (bu bv : Body) :
    Mappings.router cfg now (sqlPool now) ⟨.DELETE, [.int m], u, bu⟩ s =
      Mappings.router cfg now (sqlPool now) ⟨.DELETE, [.int m], v, bv⟩ s ∧
    ((∃ x ∈ s.mappings, x.id = m) →
      Mappings.router cfg now (sqlPool now) ⟨.DELETE, [.int m], u, bu⟩ s =
        (⟨200, .msg "Mapping removed successfully"⟩,
         { s with mappings := (s.mappings.filter (fun x => decide (x.id ≠ m))) })) ∧
    ((∀ x ∈ s.mappings, x.id ≠ m) →
      Mappings.router cfg now (sqlPool now) ⟨.DELETE, [.int m], u, bu⟩ s =
        (⟨404, .msg "Mapping not found"⟩, s)) := by
  have key : ∀ (w : Option Credential) (b : Body),
      Mappings.router cfg now (sqlPool now) ⟨.DELETE, [.int m], w, b⟩ s =
        Mappings.deleteById (sqlPool now) m s := by
    intro w b
    simp only [Mappings.router, Mappings.behind, Mappings.authMiddleware]
    rw [auth_router_calls_next cfg now (sqlPool now) _ s (Or.inl (by simp))]
  refine ⟨by rw [key, key], ?_, ?_⟩
  · rintro ⟨x, hx, hxm⟩
    rw [key]
    have hne : ¬ ((s.mappings.filter (fun y => decide (y.id = m))).map Row.mapping).length
        = 0 := by
      rw [List.length_map]
      intro h0
      have := List.length_eq_zero.mp h0
      rw [List.filter_eq_nil_iff] at this
      exact this x hx (by simpa using hxm)
    simp only [Mappings.deleteById, sqlPool, hne, if_false]
  · intro hno
    rw [key]
    have he : s.mappings.filter (fun y => decide (y.id = m)) = [] := by
      rw [List.filter_eq_nil_iff]
      intro y hy
      simpa using hno y hy
    simp only [Mappings.deleteById, sqlPool, he]
    rfl

theorem register_token_is_issued {σ : Type} (cfg : Config) (t : Nat) (pool : Pool σ)
    (body : Body) (s : σ) (tok : Token)
    (h : (Auth.register cfg t pool body s).1 = ⟨201, .token tok⟩) :
    ∃ i, Auth.issue cfg t i = .ok tok := by
  unfold Auth.register at h
  split at h
  · simp at h
  · rcases h1 : pool (.selectUserByEmail (body.field "email")) s with ⟨e | r, s1⟩
    · simp [h1, serverError] at h
    · simp only [h1] at h
      split at h
      · simp at h
      · split at h
        · rename_i password _
          rcases h2 : pool (.insertUser (body.field "name") (body.field "email")
            (cfg.bcryptHash password cfg.salt)) s1 with ⟨e | r2, s2⟩
          · simp [h2, serverError] at h
          · simp only [h2] at h
            split at h
            · split at h
              · simp only [Response.mk.injEq, ResBody.token.injEq, true_and] at h
                subst h
                exact ⟨_, by assumption⟩
              · simp [serverError] at h
            · simp [serverError] at h
        · simp [serverError] at h

theorem login_token_is_issued {σ : Type} (cfg : Config) (t : Nat) (pool : Pool σ)
    (body : Body) (s : σ) (tok : Token)
    (h : (Auth.login cfg t pool body s).1 = ⟨200, .token tok⟩) :
    ∃ i, Auth.issue cfg t i = .ok tok := by
  unfold Auth.login at h
  split at h
  · simp at h
  · rcases h1 : pool (.selectUserByEmail (body.field "email")) s with ⟨e | r, s1⟩
    · simp [h1, serverError] at h
    · simp only [h1] at h
      split at h
      · simp at h
      · split at h
        · split at h
          · simp at h
          · split at h
            · simp only [Response.mk.injEq, ResBody.token.injEq, true_and] at h
              subst h
              exact ⟨_, by assumption⟩
            · simp [serverError] at h
        · simp [serverError] at h

theorem gate_falsy (cfg : Config) (now : Nat) (header : Option Credential)
    (h : falsy header = true) :
    inlineAuthMiddleware cfg now header = .error ⟨401, .msg "No token, authorization denied"⟩ := by
  unfold inlineAuthMiddleware
  cases header with
  | none => rfl
  | some c => simp [h]

theorem gate_truthy (cfg : Config) (now : Nat) (c : Credential)
    (h : falsy (some c) = false) :
    inlineAuthMiddleware cfg now (some c) =
      match jwt.verify cfg now c with
      | .ok decoded => .ok decoded
      | .error _ => .error ⟨401, .msg "Token is not valid"⟩ := by
  simp [inlineAuthMiddleware, h]

theorem verify_ok_payload (cfg : Config) (now : Nat) (c : Credential) (decoded : TokenPayload)
    (h : jwt.verify cfg now c = .ok decoded) :
    ∃ t, c = .jwt t ∧ decoded = t.payload ∧ t.signature = cfg.hs256 cfg.JWT_SECRET t.payload := by
  cases c with
  | raw s => simp [jwt.verify] at h
  | jwt t =>
    refine ⟨t, rfl, ?_⟩
    unfold jwt.verify at h
    by_cases h1 : cfg.JWT_SECRET = ""
    · simp [h1] at h
    · by_cases h2 : t.signature = cfg.hs256 cfg.JWT_SECRET t.payload
      · refine ⟨?_, h2⟩
        simp only [h1, h2, if_false, ne_eq, not_true_eq_false] at h
        split at h
        · split_ifs at h
          exact (Except.ok.inj h).symm
        · exact (Except.ok.inj h).symm
      · simp [h1, h2] at h

/-- C3. The gate `authMiddleware` of the patient routes and of the doctor routes, on every
header value and at every clock: (1) when the header is absent or empty it answers 401 "No
token" and does not call `next`; (2) when the header holds a credential that `jwt.verify`
rejects it answers 401 "Token is not valid", the same response for a malformed token, a bad
signature and an elapsed expiry, and does not call `next`; (3) when `jwt.verify` accepts, it
sets `req.user` to the payload of the token and calls `next`.  In a router the rejected request
is answered without any call of the pool (whatever the pool is, the storage is as it was), and
an accepted request runs the route's handler once, with that identity, on the storage as the
request found it. -/
theorem gate_rejects_or_attaches_identity {σ : Type} (cfg : Config) (now : Nat)
    (pool : Pool σ) (req : Request) (s : σ) :
    (falsy req.header = true →
      Patients.authMiddleware cfg now req.header =
        .error ⟨401, .msg "No token, authorization denied"⟩ ∧
      Doctors.authMiddleware cfg now req.header =
        .error ⟨401, .msg "No token, authorization denied"⟩) ∧
    (∀ c e, req.header = some c → falsy req.header = false → jwt.verify cfg now c = .error e →
      Patients.authMiddleware cfg now req.header = .error ⟨401, .msg "Token is not valid"⟩ ∧
      Doctors.authMiddleware cfg now req.header = .error ⟨401, .msg "Token is not valid"⟩) ∧
    (∀ c decoded, req.header = some c → falsy req.header = false →
      jwt.verify cfg now c = .ok decoded →
      Patients.authMiddleware cfg now req.header = .ok decoded ∧
      Doctors.authMiddleware cfg now req.header = .ok decoded ∧
      ∃ t, c = .jwt t ∧ decoded = t.payload) ∧
    (∀ res, Patients.authMiddleware cfg now req.header = .error res →
      res.status = 401 ∧
      (Patients.router cfg now pool req s = (res, s) ∨
        Patients.router cfg now pool req s = (notRouted, s)) ∧
      (Doctors.router cfg now pool req s = (res, s) ∨
        Doctors.router cfg now pool req s = (notRouted, s))) ∧
    (∀ user, Patients.authMiddleware cfg now req.header = .ok user →
      Patients.router cfg now pool { req with method := .POST, path := [] } s =
        Patients.post pool user req.body s ∧
      Patients.router cfg now pool { req with method := .GET, path := [] } s =
        Patients.getAll pool user s ∧
      (∀ id, Patients.router cfg now pool { req with method := .GET, path := [.int id] } s =
        Patients.getById pool user id s) ∧
      (∀ id, Patients.router cfg now pool { req with method := .PUT, path := [.int id] } s =
        Patients.putById pool user id req.body s) ∧
      (∀ id, Patients.router cfg now pool { req with method := .DELETE, path := [.int id] } s =
        Patients.deleteById pool user id s) ∧
      Doctors.router cfg now pool { req with method := .POST, path := [] } s =
        Doctors.post pool user req.body s ∧
      Doctors.router cfg now pool { req with method := .GET, path := [] } s =
        Doctors.getAll pool user s ∧
      (∀ id, Doctors.router cfg now pool { req with method := .GET, path := [.int id] } s =
        Doctors.getById pool user id s) ∧
      (∀ id, Doctors.router cfg now pool { req with method := .PUT, path := [.int id] } s =
        Doctors.putById pool user id req.body s) ∧
      (∀ id, Doctors.router cfg now pool { req with method := .DELETE, path := [.int id] } s =
        Doctors.deleteById pool user id s)) := by
  refine ⟨?_, ?_, ?_, ?_, ?_⟩
  · intro h
    exact ⟨gate_falsy cfg now _ h, gate_falsy cfg now _ h⟩
  · intro c e hc hf hv
    rw [hc] at hf
    have := gate_truthy cfg now c hf
    rw [hv] at this
    simp only [Patients.authMiddleware, Doctors.authMiddleware, hc, this, and_self]
  · intro c decoded hc hf hv
    rw [hc] at hf
    have := gate_truthy cfg now c hf
    rw [hv] at this
    obtain ⟨t, ht, hd, -⟩ := verify_ok_payload cfg now c decoded hv
    simp only [Patients.authMiddleware, Doctors.authMiddleware, hc, this, true_and]
    exact ⟨t, ht, hd⟩
  · intro res hres
    have hd : Doctors.authMiddleware cfg now req.header = .error res := hres
    refine ⟨?_, ?_, ?_⟩
    · unfold Patients.authMiddleware inlineAuthMiddleware at hres
      split at hres
      · cases hres
        rfl
      · split_ifs at hres
        · cases hres
          rfl
        · split at hres
          · cases hres
          · cases hres
            rfl
    · obtain ⟨m, p, hdr, b⟩ := req
      simp only at hres
      cases m <;> rcases p with _ | ⟨(k | w), _ | ⟨_, _⟩⟩ <;>
        simp [Patients.router, gated, hres]
    · obtain ⟨m, p, hdr, b⟩ := req
      simp only at hd
      cases m <;> rcases p with _ | ⟨(k | w), _ | ⟨_, _⟩⟩ <;>
        simp [Doctors.router, gated, hd]
  · intro user huser
    have hd : Doctors.authMiddleware cfg now req.header = .ok user := huser
    simp [Patients.router, Doctors.router, gated, huser, hd]

/-- C8. A token sent by register (201) or login (200) at clock `t` is
`jwt.sign({ id }, JWT_SECRET, { expiresIn: "1h" })` for the id of some user row.  For every
identity id `i` and issuance clock `t`, a token so issued carries `i` and the expiry
`t + 3600`; the gate of the patient and doctor routes accepts it with an identity whose
id is `i` at every clock before `t + 3600`, and answers 401 at every clock from `t + 3600` on;
and the gate answers 401 at every clock for every token whose signature is not the MAC of its
payload under the process secret. -/
theorem issued_token_round_trip {σ : Type} (cfg : Config) (i : Int) (t now : Nat)
    (tok : Token) (pool : Pool σ) (body : Body) (s : σ)
    (hissue : Auth.issue cfg t i = .ok tok) :
    (∀ sent, (Auth.register cfg t pool body s).1 = ⟨201, .token sent⟩ ∨
        (Auth.login cfg t pool body s).1 = ⟨200, .token sent⟩ →
      ∃ j, Auth.issue cfg t j = .ok sent) ∧
    tok.payload.id = i ∧ tok.payload.exp = some (t + 3600) ∧
    (now < t + 3600 →
      jwt.verify cfg now (.jwt tok) = .ok tok.payload ∧
      Patients.authMiddleware cfg now (some (.jwt tok)) = .ok tok.payload ∧
      Doctors.authMiddleware cfg now (some (.jwt tok)) = .ok tok.payload) ∧
    (t + 3600 ≤ now →
      jwt.verify cfg now (.jwt tok) = .error .expired ∧
      Patients.authMiddleware cfg now (some (.jwt tok)) =
        .error ⟨401, .msg "Token is not valid"⟩ ∧
      Doctors.authMiddleware cfg now (some (.jwt tok)) =
        .error ⟨401, .msg "Token is not valid"⟩) ∧
    (∀ forged : Token, forged.signature ≠ cfg.hs256 cfg.JWT_SECRET forged.payload →
      jwt.verify cfg now (.jwt forged) = .error .invalid ∧
      Patients.authMiddleware cfg now (some (.jwt forged)) =
        .error ⟨401, .msg "Token is not valid"⟩ ∧
      Doctors.authMiddleware cfg now (some (.jwt forged)) =
        .error ⟨401, .msg "Token is not valid"⟩) := by
  unfold Auth.issue jwt.sign oneHour at hissue
  split_ifs at hissue with hsecret
  have htok := (Except.ok.inj hissue).symm
  have hgate : ∀ c : Token, inlineAuthMiddleware cfg now (some (.jwt c)) =
      match jwt.verify cfg now (.jwt c) with
      | .ok decoded => .ok decoded
      | .error _ => .error ⟨401, .msg "Token is not valid"⟩ :=
    fun c => gate_truthy cfg now (.jwt c) (by simp [falsy])
  refine ⟨?_, by rw [htok], by rw [htok], ?_, ?_, ?_⟩
  · rintro sent (h | h)
    · exact register_token_is_issued cfg t pool body s sent h
    · exact login_token_is_issued cfg t pool body s sent h
  · intro hlt
    have hv : jwt.verify cfg now (.jwt tok) = .ok tok.payload := by
      rw [htok]
      simp [jwt.verify, hsecret, Nat.not_le.mpr hlt]
    refine ⟨hv, ?_, ?_⟩ <;>
      simp only [Patients.authMiddleware, Doctors.authMiddleware, hgate, hv]
  · intro hge
    have hv : jwt.verify cfg now (.jwt tok) = .error .expired := by
      rw [htok]
      simp [jwt.verify, hsecret, hge]
    refine ⟨hv, ?_, ?_⟩ <;>
      simp only [Patients.authMiddleware, Doctors.authMiddleware, hgate, hv]
  · intro forged hsig
    have hv : jwt.verify cfg now (.jwt forged) = .error .invalid := by
      simp [jwt.verify, hsecret, hsig]
    refine ⟨hv, ?_, ?_⟩ <;>
      simp only [Patients.authMiddleware, Doctors.authMiddleware, hgate, hv]

/-! ## C9: the owner of a record -/

section Steps

variable {α : Type} (key owner : α → Int)

theorem tableStep_refl (l : List α) (n : Int) : tableStep key owner l n l n :=
  Or.inl ⟨rfl, rfl⟩

theorem tableStep_keys (l l2 : List α) (n n2 : Int) (h : tableStep key owner l n l2 n2)
    (hnd : (l.map key).Nodup) (hlt : ∀ x ∈ l, key x < n) :
    (l2.map key).Nodup ∧ ∀ x ∈ l2, key x < n2 := by
  rcases h with ⟨rfl, rfl⟩ | ⟨x, hx, rfl, rfl⟩ | ⟨f, hf, rfl, rfl⟩ | ⟨g, rfl, rfl⟩
  · exact ⟨hnd, hlt⟩
  · constructor
    · rw [List.map_append, List.map_singleton]
      apply List.Nodup.append hnd (List.nodup_singleton _)
      intro k hk hk2
      rw [List.mem_singleton] at hk2
      obtain ⟨y, hy, rfl⟩ := List.mem_map.mp hk
      have := hlt y hy
      omega
    · intro y hy
      rcases List.mem_append.mp hy with hy | hy
      · have := hlt y hy
        omega
      · rw [List.mem_singleton] at hy
        subst hy
        omega
  · constructor
    · have : (l.map f).map key = l.map key := by
        rw [List.map_map]
        apply List.map_congr_left
        intro x _
        exact (hf x).1
      rw [this]
      exact hnd
    · intro y hy
      obtain ⟨x, hx, rfl⟩ := List.mem_map.mp hy
      rw [(hf x).1]
      exact hlt x hx
  · constructor
    · exact (List.filter_sublist l).map key |>.nodup hnd
    · intro y hy
      exact hlt y (List.mem_filter.mp hy).1

theorem tableStep_owner (l l2 : List α) (n n2 : Int) (h : tableStep key owner l n l2 n2)
    (hnd : (l.map key).Nodup) (hlt : ∀ x ∈ l, key x < n) :
    ∀ p ∈ l, ∀ q ∈ l2, key q = key p → owner q = owner p := by
  intro p hp q hq hk
  rcases h with ⟨rfl, rfl⟩ | ⟨x, hx, rfl, rfl⟩ | ⟨f, hf, rfl, rfl⟩ | ⟨g, rfl, rfl⟩
  · rw [List.inj_on_of_nodup_map hnd hq hp hk]
  · rcases List.mem_append.mp hq with hq | hq
    · rw [List.inj_on_of_nodup_map hnd hq hp hk]
    · rw [List.mem_singleton] at hq
      subst hq
      have := hlt p hp
      omega
  · obtain ⟨x, hx, rfl⟩ := List.mem_map.mp hq
    rw [(hf x).1] at hk
    rw [(hf x).2, List.inj_on_of_nodup_map hnd hx hp hk]
  · rw [List.inj_on_of_nodup_map hnd (List.mem_filter.mp hq).1 hp hk]

end Steps

theorem storeStep_refl (s : Store) : storeStep s s :=
  ⟨tableStep_refl _ _ _ _, tableStep_refl _ _ _ _⟩

theorem storeStep_keysOk (s t : Store) (h : storeStep s t) (hk : s.keysOk) : t.keysOk := by
  obtain ⟨hp, hpl, hd, hdl⟩ := hk
  have h1 := tableStep_keys _ _ _ _ _ _ h.1 hp hpl
  have h2 := tableStep_keys _ _ _ _ _ _ h.2 hd hdl
  exact ⟨h1.1, h1.2, h2.1, h2.2⟩

theorem storeStep_ownersKept (s t : Store) (h : storeStep s t) (hk : s.keysOk) :
    ownersKept s t := by
  obtain ⟨hp, hpl, hd, hdl⟩ := hk
  exact ⟨tableStep_owner _ _ _ _ _ _ h.1 hp hpl, tableStep_owner _ _ _ _ _ _ h.2 hd hdl⟩

theorem sql_insertPatient (now : Nat) (n a g c d : Option JVal) (o : Int) (s : Store) :
    sqlPool now (.insertPatient n a g c d o) s =
      (.ok ⟨[.patient ⟨s.patients_id_seq, pgParam n, pgParam a, pgParam g, pgParam c,
          pgParam d, o⟩], 1⟩,
       { s with
         patients := s.patients ++ [⟨s.patients_id_seq, pgParam n, pgParam a, pgParam g,
           pgParam c, pgParam d, o⟩]
         patients_id_seq := s.patients_id_seq + 1 }) := rfl

theorem sql_insertDoctor (now : Nat) (n sp c e : Option JVal) (o : Int) (s : Store) :
    sqlPool now (.insertDoctor n sp c e o) s =
      (.ok ⟨[.doctor ⟨s.doctors_id_seq, pgParam n, pgParam sp, pgParam c, pgParam e, o⟩], 1⟩,
       { s with
         doctors := s.doctors ++ [⟨s.doctors_id_seq, pgParam n, pgParam sp, pgParam c,
           pgParam e, o⟩]
         doctors_id_seq := s.doctors_id_seq + 1 }) := rfl

theorem patients_post_step (now : Nat) (u : TokenPayload) (body : Body) (s : Store) :
    storeStep s (Patients.post (sqlPool now) u body s).2 := by
  unfold Patients.post
  split
  · exact storeStep_refl s
  · rw [sql_insertPatient]
    exact ⟨Or.inr (Or.inl ⟨_, rfl, rfl, rfl⟩), tableStep_refl _ _ _ _⟩

theorem doctors_post_step (now : Nat) (u : TokenPayload) (body : Body) (s : Store) :
    storeStep s (Doctors.post (sqlPool now) u body s).2 := by
  unfold Doctors.post
  split
  · exact storeStep_refl s
  · rw [sql_insertDoctor]
    exact ⟨tableStep_refl _ _ _ _, Or.inr (Or.inl ⟨_, rfl, rfl, rfl⟩)⟩

theorem patients_put_step (now : Nat) (u : TokenPayload) (id : Int) (body : Body)
    (s : Store) : storeStep s (Patients.putById (sqlPool now) u id body s).2 := by
  unfold Patients.putById
  split
  · exact storeStep_refl s
  · rw [sql_selectPatientOwned]
    simp only
    split
    · exact storeStep_refl s
    · rw [sql_updatePatientOwned]
      refine ⟨Or.inr (Or.inr (Or.inl ⟨_, ?_, rfl, rfl⟩)), tableStep_refl _ _ _ _⟩
      intro x
      split <;> exact ⟨rfl, rfl⟩

theorem doctors_put_step (now : Nat) (u : TokenPayload) (id : Int) (body : Body)
    (s : Store) : storeStep s (Doctors.putById (sqlPool now) u id body s).2 := by
  unfold Doctors.putById
  split
  · exact storeStep_refl s
  · rw [sql_selectDoctorOwned]
    simp only
    split
    · exact storeStep_refl s
    · rw [sql_updateDoctorOwned]
      refine ⟨tableStep_refl _ _ _ _, Or.inr (Or.inr (Or.inl ⟨_, ?_, rfl, rfl⟩))⟩
      intro x
      split <;> exact ⟨rfl, rfl⟩

theorem patients_delete_step (now : Nat) (u : TokenPayload) (id : Int) (s : Store) :
    storeStep s (Patients.deleteById (sqlPool now) u id s).2 := by
  unfold Patients.deleteById
  rw [sql_selectPatientOwned]
  simp only
  split
  · exact storeStep_refl s
  · rw [sql_deletePatientOwned]
    exact ⟨Or.inr (Or.inr (Or.inr ⟨_, rfl, rfl⟩)), tableStep_refl _ _ _ _⟩

theorem doctors_delete_step (now : Nat) (u : TokenPayload) (id : Int) (s : Store) :
    storeStep s (Doctors.deleteById (sqlPool now) u id s).2 := by
  unfold Doctors.deleteById
  rw [sql_selectDoctorOwned]
  simp only
  split
  · exact storeStep_refl s
  · rw [sql_deleteDoctorOwned]
    exact ⟨tableStep_refl _ _ _ _, Or.inr (Or.inr (Or.inr ⟨_, rfl, rfl⟩))⟩

theorem patients_get_same (now : Nat) (u : TokenPayload) (id : Int) (s : Store) :
    (Patients.getById (sqlPool now) u id s).2 = s := by
  unfold Patients.getById
  rw [sql_selectPatientOwned]
  simp only
  split <;> rfl

theorem doctors_get_same (now : Nat) (u : TokenPayload) (id : Int) (s : Store) :
    (Doctors.getById (sqlPool now) u id s).2 = s := by
  unfold Doctors.getById
  rw [sql_selectDoctorOwned]
  simp only
  split <;> rfl

theorem gated_step (gate : Except Response TokenPayload) (next : TokenPayload → Handler Store)
    (s : Store) (h : ∀ user, storeStep s (next user s).2) : storeStep s (gated gate next s).2 := by
  unfold gated
  cases gate with
  | error res => exact storeStep_refl s
  | ok user => exact h user

theorem serve_step (cfg : Config) (s : Store) (c : Call) : storeStep s (serve cfg s c).2 := by
  cases c with
  | patients now req =>
    obtain ⟨m, p, hdr, b⟩ := req
    cases m <;> rcases p with _ | ⟨(k | w), _ | ⟨_, _⟩⟩ <;>
      simp only [serve, Patients.router] <;>
      first
      | exact storeStep_refl s
      | (apply gated_step
         intro user
         first
         | exact patients_post_step now user _ s
         | exact patients_put_step now user _ _ s
         | exact patients_delete_step now user _ s
         | (rw [patients_get_same]; exact storeStep_refl s)
         | (split <;> exact storeStep_refl s)
         | exact storeStep_refl s)
  | doctors now req =>
    obtain ⟨m, p, hdr, b⟩ := req
    cases m <;> rcases p with _ | ⟨(k | w), _ | ⟨_, _⟩⟩ <;>
      simp only [serve, Doctors.router] <;>
      first
      | exact storeStep_refl s
      | (apply gated_step
         intro user
         first
         | exact doctors_post_step now user _ s
         | exact doctors_put_step now user _ _ s
         | exact doctors_delete_step now user _ s
         | (rw [doctors_get_same]; exact storeStep_refl s)
         | (split <;> exact storeStep_refl s)
         | exact storeStep_refl s)

theorem serveAll_keysOk (cfg : Config) (calls : List Call) :
    ∀ s : Store, s.keysOk → (serveAll cfg s calls).keysOk := by
  induction calls with
  | nil => exact fun s h => h
  | cons c cs ih =>
    intro s h
    exact ih _ (storeStep_keysOk _ _ (serve_step cfg s c) h)

section Descent

variable {α : Type} (key owner : α → Int)

theorem tableStep_descends (l l2 : List α) (n n2 : Int) (h : tableStep key owner l n l2 n2) :
    tableDescends key owner l n l2 n2 := by
  rcases h with ⟨rfl, rfl⟩ | ⟨x, hx, rfl, rfl⟩ | ⟨f, hf, rfl, rfl⟩ | ⟨g, rfl, rfl⟩
  · exact ⟨le_refl _, fun q hq _ => ⟨q, hq, rfl, rfl⟩⟩
  · refine ⟨by omega, fun q hq hlt => ?_⟩
    rcases List.mem_append.mp hq with hq | hq
    · exact ⟨q, hq, rfl, rfl⟩
    · rw [List.mem_singleton] at hq
      subst hq
      omega
  · refine ⟨le_refl _, fun q hq _ => ?_⟩
    obtain ⟨x, hx, rfl⟩ := List.mem_map.mp hq
    exact ⟨x, hx, (hf x).1.symm, (hf x).2.symm⟩
  · exact ⟨le_refl _, fun q hq _ => ⟨q, (List.mem_filter.mp hq).1, rfl, rfl⟩⟩

theorem tableDescends_trans (l l2 l3 : List α) (n n2 n3 : Int)
    (h1 : tableDescends key owner l n l2 n2) (h2 : tableDescends key owner l2 n2 l3 n3) :
    tableDescends key owner l n l3 n3 := by
  refine ⟨le_trans h1.1 h2.1, fun q hq hlt => ?_⟩
  obtain ⟨p2, hp2, hk2, ho2⟩ := h2.2 q hq (lt_of_lt_of_le hlt h1.1)
  obtain ⟨p, hp, hk, ho⟩ := h1.2 p2 hp2 (by rw [hk2]; exact hlt)
  exact ⟨p, hp, hk.trans hk2, ho.trans ho2⟩

theorem tableDescends_owner (l l2 : List α) (n n2 : Int)
    (h : tableDescends key owner l n l2 n2) (hnd : (l.map key).Nodup)
    (hlt : ∀ x ∈ l, key x < n) :
    ∀ p ∈ l, ∀ q ∈ l2, key q = key p → owner q = owner p := by
  intro p hp q hq hk
  obtain ⟨p2, hp2, hk2, ho2⟩ := h.2 q hq (by rw [hk]; exact hlt p hp)
  have : p2 = p := List.inj_on_of_nodup_map hnd hp2 hp (hk2.trans hk)
  rw [← ho2, this]

end Descent

theorem serveAll_descends (cfg : Config) (calls : List Call) :
    ∀ s : Store,
      tableDescends Patient.id Patient.created_by s.patients s.patients_id_seq
        (serveAll cfg s calls).patients (serveAll cfg s calls).patients_id_seq ∧
      tableDescends Doctor.id Doctor.created_by s.doctors s.doctors_id_seq
        (serveAll cfg s calls).doctors (serveAll cfg s calls).doctors_id_seq := by
  induction calls with
  | nil =>
    intro s
    exact ⟨tableStep_descends _ _ _ _ _ _ (tableStep_refl _ _ _ _),
      tableStep_descends _ _ _ _ _ _ (tableStep_refl _ _ _ _)⟩
  | cons c cs ih =>
    intro s
    have h := serve_step cfg s c
    have h2 := ih (serve cfg s c).2
    exact ⟨tableDescends_trans _ _ _ _ _ _ _ _ (tableStep_descends _ _ _ _ _ _ h.1) h2.1,
      tableDescends_trans _ _ _ _ _ _ _ _ (tableStep_descends _ _ _ _ _ _ h.2) h2.2⟩

/-- C9. A create that answers 201 stores and returns a row whose `created_by` is the id of
the caller, whatever the body holds (a `created_by` key of the body is never read).  From a
store with distinct keys below the sequences, after every sequence of requests to the patient
and doctor routers, by any callers with any credentials: every row that was present at the
start and is still present (by `id`) has the `created_by` it had, and the same holds between
the store before and after each further request. -/
theorem owner_fixed_at_creation (cfg : Config) (now : Nat) (s : Store) (u : TokenPayload)
    (body : Body) (calls : List Call) (c : Call) (hkeys : s.keysOk) :
    ((Patients.post (sqlPool now) u body s).1.status = 201 →
      ∃ p : Patient, (Patients.post (sqlPool now) u body s).1.body = .row (some (.patient p)) ∧
        p.created_by = u.id ∧ p.id = s.patients_id_seq ∧
        (Patients.post (sqlPool now) u body s).2.patients = s.patients ++ [p]) ∧
    ((Doctors.post (sqlPool now) u body s).1.status = 201 →
      ∃ d : Doctor, (Doctors.post (sqlPool now) u body s).1.body = .row (some (.doctor d)) ∧
        d.created_by = u.id ∧ d.id = s.doctors_id_seq ∧
        (Doctors.post (sqlPool now) u body s).2.doctors = s.doctors ++ [d]) ∧
    ownersKept s (serveAll cfg s calls) ∧
    ownersKept (serveAll cfg s calls) (serve cfg (serveAll cfg s calls) c).2 := by
  refine ⟨?_, ?_, ?_, ?_⟩
  · unfold Patients.post
    split
    · intro h
      simp at h
    · intro _
      rw [sql_insertPatient]
      exact ⟨_, rfl, rfl, rfl, rfl⟩
  · unfold Doctors.post
    split
    · intro h
      simp at h
    · intro _
      rw [sql_insertDoctor]
      exact ⟨_, rfl, rfl, rfl, rfl⟩
  · have h := serveAll_descends cfg calls s
    exact ⟨tableDescends_owner _ _ _ _ _ _ h.1 hkeys.1 hkeys.2.1,
      tableDescends_owner _ _ _ _ _ _ h.2 hkeys.2.2.1 hkeys.2.2.2⟩
  · exact storeStep_ownersKept _ _ (serve_step cfg _ c) (serveAll_keysOk cfg calls s hkeys)

/-! ## The theorems at the sample data -/

/-- Witness of C1 at `store0`: identity 2 asks for, and tries to delete, the patient and the
doctor that identity 1 created. -/
theorem cross_identity_same_as_missing_witness :
    Patients.getById (sqlPool 0) bob patient1.id store0 =
      (⟨404, .msg "Patient not found"⟩, store0) ∧
    Patients.getById (sqlPool 0) bob 7 store0 = (⟨404, .msg "Patient not found"⟩, store0) ∧
    Doctors.deleteById (sqlPool 0) bob doctor1.id store0 =
      (⟨404, .msg "Doctor not found"⟩, store0) :=
  have h := cross_identity_same_as_missing 0 store0 alice bob [] 7 (by decide) (by decide)
  have hp := h.1 patient1 (by decide) (by decide) (by decide)
  have hd := h.2 doctor1 (by decide) (by decide) (by decide)
  ⟨hp.1, hp.2.1, hd.2.2.1⟩

/-- Witness of C3 at a request without header to `GET /api/patients`. -/
theorem gate_rejects_or_attaches_identity_witness :
    Patients.authMiddleware cfg0 0 none = .error ⟨401, .msg "No token, authorization denied"⟩ ∧
    Doctors.authMiddleware cfg0 0 none = .error ⟨401, .msg "No token, authorization denied"⟩ :=
  (gate_rejects_or_attaches_identity cfg0 0 (sqlPool 0) ⟨.GET, [], none, []⟩ store0).1
    (by decide)

/-- Witness of C5 at `store0`: identity 1 renames its patient 1; the gender stays. -/
theorem update_merges_supplied_fields_witness :
    ∃ r2 : Patient,
      Patients.putById (sqlPool 0) alice patient1.id [("name", .str "P2")] store0 =
        (⟨200, .row (some (.patient r2))⟩,
         { store0 with
           patients := store0.patients.map (fun x => if x = patient1 then r2 else x) }) ∧
      r2.name = some (.str "P2") ∧ r2.gender = patient1.gender := by
  obtain ⟨r2, h, -, -, hn, -, hg, -, -⟩ :=
    ((update_merges_supplied_fields 0 store0 alice [("name", .str "P2")] (by decide)).1
      (by decide)).1 patient1 (by decide) (by decide)
  exact ⟨r2, h, (hn.1 (.str "P2") (by decide) (by decide)).1, hg.2 (Or.inl (by decide))⟩

/-- Witness of C7 at `store0`: identity 1 deletes its patient 1 twice. -/
theorem delete_twice_second_is_not_found_witness :
    Patients.deleteById (sqlPool 0) alice patient1.id store0 =
      (⟨200, .msg "Patient removed successfully"⟩,
       { store0 with patients := (store0.patients.filter (fun x => decide (x ≠ patient1))) }) ∧
    Patients.deleteById (sqlPool 0) alice patient1.id
        (Patients.deleteById (sqlPool 0) alice patient1.id store0).2 =
      (⟨404, .msg "Patient not found"⟩,
        (Patients.deleteById (sqlPool 0) alice patient1.id store0).2) :=
  have h := (delete_twice_second_is_not_found 0 store0 alice (by decide)).1 patient1
    (by decide) (by decide)
  ⟨h.1, h.2.2⟩

/-- Witness of C8: the token issued for identity 1 at clock 0 under `cfg0`, presented at
clock 10 and at clock 3600. -/
theorem issued_token_round_trip_witness :
    Auth.issue cfg0 0 1 = .ok ⟨alice, 7⟩ ∧
    Patients.authMiddleware cfg0 10 (some (.jwt ⟨alice, 7⟩)) = .ok alice ∧
    Patients.authMiddleware cfg0 3600 (some (.jwt ⟨alice, 7⟩)) =
      .error ⟨401, .msg "Token is not valid"⟩ :=
  ⟨by decide,
    ((issued_token_round_trip cfg0 1 0 10 ⟨alice, 7⟩ (sqlPool 0) [] store0
      (by decide)).2.2.2.1 (by decide)).2.1,
    ((issued_token_round_trip cfg0 1 0 3600 ⟨alice, 7⟩ (sqlPool 0) [] store0
      (by decide)).2.2.2.2.1 (by decide)).2.1⟩

/-- Witness of C9 at `store0`: identity 2 creates a patient, then tries to update and to
delete patient 1 of identity 1. -/
theorem owner_fixed_at_creation_witness :
    ownersKept store0 (serveAll cfg0 store0
      [.patients 0 ⟨.POST, [], some (.jwt ⟨bob, 8⟩), [("name", .str "X"), ("age", .num 4),
          ("created_by", .num 1)]⟩,
       .patients 1 ⟨.PUT, [.int 1], some (.jwt ⟨bob, 8⟩), [("name", .str "Y")]⟩]) :=
  (owner_fixed_at_creation cfg0 0 store0 bob [] _
    (.patients 2 ⟨.DELETE, [.int 1], some (.jwt ⟨bob, 8⟩), []⟩) (by decide)).2.2.1

/-- Witness of C10 at `store0`: mapping 1 deleted without a credential and with the token of
identity 2. -/
theorem mapping_delete_ignores_identity_witness :
    Mappings.router cfg0 0 (sqlPool 0) ⟨.DELETE, [.int 1], none, []⟩ store0 =
      (⟨200, .msg "Mapping removed successfully"⟩,
       { store0 with mappings := (store0.mappings.filter (fun x => decide (x.id ≠ 1))) }) :=
  (mapping_delete_ignores_identity cfg0 0 store0 1 none (some (.jwt ⟨bob, 8⟩)) [] []).2.1
    ⟨mapping1, by decide, by decide⟩

end Healthcare
